import Mathlib

/-!
Verification of the notebooklm-artifact-orchestrator core against its
specification.  The definitions below are shallow embeddings of the Python
source:

* guarded_generate.py       (budget guard, circuit breaker, poll loop,
                             artifact-id extraction, orchestrator main loop)
* bookflow/core/io.py       (parse_json_payload)
* bookflow/core/state_machine.py (run-manifest transitions)
* run_book_to_artifact.py   (source-resolution cache overlay)

JSON values are modelled by an inductive type; the JSON parser below models
the behaviour of the Python json module (json.loads / JSONDecoder.raw_decode)
on the payloads the orchestrator handles.  JSON numbers are modelled as
integers: all status codes and ids the orchestrator parses are integers or
strings, and none of the verified properties involve fractional numbers.
Unicode surrogate-pair joining in string escapes is not modelled.
-/

namespace Orchestrator

/-- JSON values.  Numbers are modelled as integers (see module comment). -/
inductive Json where
  | null : Json
  | bool : Bool → Json
  | num : Int → Json
  | str : String → Json
  | arr : List Json → Json
  | obj : List (String × Json) → Json

mutual

/-- Decidable equality for JSON values. -/
def Json.decEq : (a b : Json) → Decidable (a = b)
  | .null, .null => .isTrue rfl
  | .null, .bool _ => .isFalse (fun h => Json.noConfusion h)
  | .null, .num _ => .isFalse (fun h => Json.noConfusion h)
  | .null, .str _ => .isFalse (fun h => Json.noConfusion h)
  | .null, .arr _ => .isFalse (fun h => Json.noConfusion h)
  | .null, .obj _ => .isFalse (fun h => Json.noConfusion h)
  | .bool _, .null => .isFalse (fun h => Json.noConfusion h)
  | .bool x, .bool y =>
    if h : x = y then .isTrue (by rw [h])
    else .isFalse (fun hh => h (by injection hh))
  | .bool _, .num _ => .isFalse (fun h => Json.noConfusion h)
  | .bool _, .str _ => .isFalse (fun h => Json.noConfusion h)
  | .bool _, .arr _ => .isFalse (fun h => Json.noConfusion h)
  | .bool _, .obj _ => .isFalse (fun h => Json.noConfusion h)
  | .num _, .null => .isFalse (fun h => Json.noConfusion h)
  | .num _, .bool _ => .isFalse (fun h => Json.noConfusion h)
  | .num x, .num y =>
    if h : x = y then .isTrue (by rw [h])
    else .isFalse (fun hh => h (by injection hh))
  | .num _, .str _ => .isFalse (fun h => Json.noConfusion h)
  | .num _, .arr _ => .isFalse (fun h => Json.noConfusion h)
  | .num _, .obj _ => .isFalse (fun h => Json.noConfusion h)
  | .str _, .null => .isFalse (fun h => Json.noConfusion h)
  | .str _, .bool _ => .isFalse (fun h => Json.noConfusion h)
  | .str _, .num _ => .isFalse (fun h => Json.noConfusion h)
  | .str x, .str y =>
    if h : x = y then .isTrue (by rw [h])
    else .isFalse (fun hh => h (by injection hh))
  | .str _, .arr _ => .isFalse (fun h => Json.noConfusion h)
  | .str _, .obj _ => .isFalse (fun h => Json.noConfusion h)
  | .arr _, .null => .isFalse (fun h => Json.noConfusion h)
  | .arr _, .bool _ => .isFalse (fun h => Json.noConfusion h)
  | .arr _, .num _ => .isFalse (fun h => Json.noConfusion h)
  | .arr _, .str _ => .isFalse (fun h => Json.noConfusion h)
  | .arr xs, .arr ys =>
    match Json.decEqList xs ys with
    | .isTrue h => .isTrue (by rw [h])
    | .isFalse h => .isFalse (fun hh => h (by injection hh))
  | .arr _, .obj _ => .isFalse (fun h => Json.noConfusion h)
  | .obj _, .null => .isFalse (fun h => Json.noConfusion h)
  | .obj _, .bool _ => .isFalse (fun h => Json.noConfusion h)
  | .obj _, .num _ => .isFalse (fun h => Json.noConfusion h)
  | .obj _, .str _ => .isFalse (fun h => Json.noConfusion h)
  | .obj _, .arr _ => .isFalse (fun h => Json.noConfusion h)
  | .obj xs, .obj ys =>
    match Json.decEqKvs xs ys with
    | .isTrue h => .isTrue (by rw [h])
    | .isFalse h => .isFalse (fun hh => h (by injection hh))

/-- Decidable equality for lists of JSON values. -/
def Json.decEqList : (xs ys : List Json) → Decidable (xs = ys)
  | [], [] => .isTrue rfl
  | [], _ :: _ => .isFalse (fun h => List.noConfusion h)
  | _ :: _, [] => .isFalse (fun h => List.noConfusion h)
  | x :: xs, y :: ys =>
    match Json.decEq x y with
    | .isFalse h => .isFalse (fun hh => h (by injection hh))
    | .isTrue h1 =>
      match Json.decEqList xs ys with
      | .isTrue h2 => .isTrue (by rw [h1, h2])
      | .isFalse h2 => .isFalse (fun hh => h2 (by injection hh))

/-- Decidable equality for JSON object member lists. -/
def Json.decEqKvs : (xs ys : List (String × Json)) → Decidable (xs = ys)
  | [], [] => .isTrue rfl
  | [], _ :: _ => .isFalse (fun h => List.noConfusion h)
  | _ :: _, [] => .isFalse (fun h => List.noConfusion h)
  | (k1, v1) :: xs, (k2, v2) :: ys =>
    if hk : k1 = k2 then
      match Json.decEq v1 v2 with
      | .isFalse h =>
        .isFalse (fun hh => h (congrArg (fun l => (l.headD ("", Json.null)).2) hh))
      | .isTrue hv =>
        match Json.decEqKvs xs ys with
        | .isTrue h2 => .isTrue (by rw [hk, hv, h2])
        | .isFalse h2 => .isFalse (fun hh => h2 (by injection hh))
    else
      .isFalse (fun hh => hk (congrArg (fun l => (l.headD ("", Json.null)).1) hh))

end

instance : DecidableEq Json := Json.decEq

instance : DecidableEq (Except String Json) := fun a b =>
  match a, b with
  | .error e1, .error e2 =>
    if h : e1 = e2 then .isTrue (by rw [h])
    else .isFalse (fun hh => h (by injection hh))
  | .error _, .ok _ => .isFalse (fun h => Except.noConfusion h)
  | .ok _, .error _ => .isFalse (fun h => Except.noConfusion h)
  | .ok v1, .ok v2 =>
    if h : v1 = v2 then .isTrue (by rw [h])
    else .isFalse (fun hh => h (by injection hh))

/-- Whitespace accepted between JSON tokens by the Python json module. -/
def isJsonWs (c : Char) : Bool :=
  c = ' ' || c = '\t' || c = '\n' || c = '\r'

/-- Whitespace stripped by Python str.strip (ASCII portion). -/
def isPyWs (c : Char) : Bool :=
  c = ' ' || c = '\t' || c = '\n' || c = '\r' || c = '\x0b' || c = '\x0c'

def skipWs (cs : List Char) : List Char := cs.dropWhile isJsonWs

/-- Python str.strip on a character list. -/
def pyStripChars (cs : List Char) : List Char :=
  ((cs.dropWhile isPyWs).reverse.dropWhile isPyWs).reverse

/-- Python str.strip on a string. -/
def pyStrip (s : String) : String := String.mk (pyStripChars s.data)

/-- Python str.lower on a string (ASCII case folding). -/
def pyLower (s : String) : String := String.mk (s.data.map Char.toLower)

def isHexDigit (c : Char) : Bool :=
  c.isDigit || ('a' ≤ c && c ≤ 'f') || ('A' ≤ c && c ≤ 'F')

def hexVal (c : Char) : Nat :=
  if c.isDigit then c.toNat - '0'.toNat
  else if 'a' ≤ c && c ≤ 'f' then c.toNat - 'a'.toNat + 10
  else c.toNat - 'A'.toNat + 10

/-- Set a key in a JSON-object association list (Python dict assignment:
replace in place when present, append otherwise). -/
def objSet (kvs : List (String × Json)) (k : String) (v : Json) :
    List (String × Json) :=
  if kvs.any (fun p => p.1 = k) then
    kvs.map (fun p => if p.1 = k then (k, v) else p)
  else
    kvs ++ [(k, v)]

/-- Look a key up in a JSON-object association list (Python dict.get). -/
def objGet (kvs : List (String × Json)) (k : String) : Option Json :=
  (kvs.find? (fun p => p.1 = k)).map (fun p => p.2)

/-- Parse the body of a JSON string literal after the opening quote,
handling the escape sequences the Python json module accepts. -/
def parseStringChars : Nat → List Char → Option (List Char × List Char)
  | 0, _ => none
  | _ + 1, [] => none
  | fuel + 1, c :: rest =>
    if c = '"' then
      some ([], rest)
    else if c = '\\' then
      match rest with
      | [] => none
      | e :: rest2 =>
        let esc : Option (Char × List Char) :=
          if e = '"' then some ('"', rest2)
          else if e = '\\' then some ('\\', rest2)
          else if e = '/' then some ('/', rest2)
          else if e = 'b' then some ('\x08', rest2)
          else if e = 'f' then some ('\x0c', rest2)
          else if e = 'n' then some ('\n', rest2)
          else if e = 'r' then some ('\r', rest2)
          else if e = 't' then some ('\t', rest2)
          else if e = 'u' then
            match rest2 with
            | h1 :: h2 :: h3 :: h4 :: rest3 =>
              if isHexDigit h1 && isHexDigit h2 && isHexDigit h3 && isHexDigit h4 then
                some (Char.ofNat
                  (((hexVal h1 * 16 + hexVal h2) * 16 + hexVal h3) * 16 + hexVal h4), rest3)
              else none
            | _ => none
          else none
        match esc with
        | none => none
        | some (ch, rest3) =>
          match parseStringChars fuel rest3 with
          | none => none
          | some (s, r) => some (ch :: s, r)
    else if c.toNat < 32 then
      none
    else
      match parseStringChars fuel rest with
      | none => none
      | some (s, r) => some (c :: s, r)

/-- Parse an unsigned JSON integer: 0, or a nonzero digit followed by
digits (the INTEGER part of the Python json NUMBER_RE). -/
def parseUnsignedInt : List Char → Option (Nat × List Char)
  | [] => none
  | c :: rest =>
    if c = '0' then some (0, rest)
    else if c.isDigit then
      let digits := rest.takeWhile Char.isDigit
      let rest2 := rest.dropWhile Char.isDigit
      some ((c :: digits).foldl (fun acc d => acc * 10 + (d.toNat - '0'.toNat)) 0, rest2)
    else none

/-- Parse a JSON number (integer form; see module comment). -/
def parseNumber : List Char → Option (Json × List Char)
  | [] => none
  | c :: rest =>
    if c = '-' then
      match parseUnsignedInt rest with
      | some (n, r) => some (Json.num (-(n : Int)), r)
      | none => none
    else
      match parseUnsignedInt (c :: rest) with
      | some (n, r) => some (Json.num (n : Int), r)
      | none => none

/-- Parser mode: a value, the remaining members of an object, or the
remaining items of an array. -/
inductive PMode where
  | value : PMode
  | members : List (String × Json) → PMode
  | items : List Json → PMode

/-- Core of the Python json scanner, structurally recursive on fuel.
Mode value parses one JSON value; mode members parses the members of a
nonempty object (duplicate keys overwrite earlier values, as in a Python
dict); mode items parses the items of a nonempty array.  Every recursive
call both spends one unit of fuel and consumes at least one input
character, so length + 1 fuel always suffices. -/
def parseCore : Nat → PMode → List Char → Option (Json × List Char)
  | 0, _, _ => none
  | _ + 1, .value, [] => none
  | fuel + 1, .value, c :: rest =>
    if c = '"' then
      match parseStringChars (rest.length + 1) rest with
      | some (s, r) => some (Json.str (String.mk s), r)
      | none => none
    else if c = '\x7b' then
      match skipWs rest with
      | [] => none
      | c2 :: rest2 =>
        if c2 = '\x7d' then some (Json.obj [], rest2)
        else parseCore fuel (.members []) (c2 :: rest2)
    else if c = '[' then
      match skipWs rest with
      | [] => none
      | c2 :: rest2 =>
        if c2 = ']' then some (Json.arr [], rest2)
        else parseCore fuel (.items []) (c2 :: rest2)
    else if c = 'n' then
      match rest with
      | 'u' :: 'l' :: 'l' :: r => some (Json.null, r)
      | _ => none
    else if c = 't' then
      match rest with
      | 'r' :: 'u' :: 'e' :: r => some (Json.bool true, r)
      | _ => none
    else if c = 'f' then
      match rest with
      | 'a' :: 'l' :: 's' :: 'e' :: r => some (Json.bool false, r)
      | _ => none
    else if c = '-' || c.isDigit then
      parseNumber (c :: rest)
    else none
  | fuel + 1, .members acc, cs =>
    match cs with
    | '"' :: rest =>
      match parseStringChars (rest.length + 1) rest with
      | none => none
      | some (key, r1) =>
        match skipWs r1 with
        | ':' :: r2 =>
          match parseCore fuel .value (skipWs r2) with
          | none => none
          | some (v, r3) =>
            let acc2 := objSet acc (String.mk key) v
            match skipWs r3 with
            | ',' :: r4 => parseCore fuel (.members acc2) (skipWs r4)
            | '\x7d' :: r4 => some (Json.obj acc2, r4)
            | _ => none
        | _ => none
    | _ => none
  | fuel + 1, .items acc, cs =>
    match parseCore fuel .value cs with
    | none => none
    | some (v, r1) =>
      match skipWs r1 with
      | ',' :: r2 => parseCore fuel (.items (acc ++ [v])) (skipWs r2)
      | ']' :: r2 => some (Json.arr (acc ++ [v]), r2)
      | _ => none

/-- Parse one JSON value, mirroring the Python json scanner. -/
def parseValue (fuel : Nat) (cs : List Char) : Option (Json × List Char) :=
  parseCore fuel .value cs

/-- Python JSONDecoder.raw_decode: decode one JSON value starting at the
head of the input, returning the value and the number of characters
consumed. -/
def rawDecode (cs : List Char) : Option (Json × Nat) :=
  match parseValue (cs.length + 1) cs with
  | some (v, rest) => some (v, cs.length - rest.length)
  | none => none

/-- Python json.loads on a character list: skip leading whitespace, decode
one value, and require only whitespace to remain. -/
def loadsChars (cs : List Char) : Option Json :=
  let cs1 := skipWs cs
  match parseValue (cs1.length + 1) cs1 with
  | some (v, rest) => if (skipWs rest).isEmpty then some v else none
  | none => none

/-- Python json.loads on a string. -/
def jsonLoads (s : String) : Option Json := loadsChars s.data

/-- Tier (b) of parse_json_payload (bookflow/core/io.py): walk the text,
attempt a raw decode at every brace or bracket, and keep the decode whose
absolute end index is greatest (strictly greater wins, so on equal end
indices the earliest start is kept).  The pair carries the best value so
far and its end index (initially -1). -/
def bestScan : List Char → Nat → Option Json × Int → Option Json × Int
  | [], _, acc => acc
  | c :: rest, i, (bo, be) =>
    let acc2 :=
      if c = '\x7b' || c = '[' then
        match rawDecode (c :: rest) with
        | some (v, consumed) =>
          if ((i + consumed : Nat) : Int) > be then (some v, ((i + consumed : Nat) : Int))
          else (bo, be)
        | none => (bo, be)
      else (bo, be)
    bestScan rest (i + 1) acc2

/-- Python str.splitlines restricted to the line breaks the orchestrator
emits and consumes (LF, CR, CRLF). -/
def splitLines : List Char → List (List Char)
  | [] => []
  | cs => go cs []
where
  go : List Char → List Char → List (List Char)
    | [], cur => [cur.reverse]
    | '\r' :: '\n' :: rest, cur => cur.reverse :: go rest []
    | '\n' :: rest, cur => cur.reverse :: go rest []
    | '\r' :: rest, cur => cur.reverse :: go rest []
    | c :: rest, cur => go rest (c :: cur)

/-- Tier (c) shared by parse_json_payload and jload: strip every line,
drop the empty ones, and return the json.loads of the last line that
starts with a brace or bracket and parses. -/
def lastJsonLine (cs : List Char) : Option Json :=
  ((((splitLines cs).map pyStripChars).filter (fun ln => ¬ ln.isEmpty)).reverse).findSome?
    (fun ln =>
      match ln with
      | c :: _ => if c = '\x7b' || c = '[' then loadsChars ln else none
      | [] => none)

/-- parse_json_payload from bookflow/core/io.py: strip the raw text, then
try a full json.loads, then the best embedded raw decode, then the last
JSON-looking line; fail otherwise. -/
def parse_json_payload (raw : String) : Except String Json :=
  let text := pyStripChars raw.data
  if text.isEmpty then Except.error "No JSON found in output"
  else
    match loadsChars text with
    | some v => Except.ok v
    | none =>
      match bestScan text 0 (none, -1) with
      | (some v, _) => Except.ok v
      | (none, _) =>
        match lastJsonLine text with
        | some v => Except.ok v
        | none => Except.error "No JSON object found in output"

/-- jload from guarded_generate.py: strip the raw text, try a full
json.loads, then parse the last stripped line that starts with a brace or
bracket; return nothing otherwise. -/
def jload (raw : String) : Option Json :=
  let text := pyStripChars raw.data
  if text.isEmpty then none
  else
    match loadsChars text with
    | some v => some v
    | none => lastJsonLine text

/-- Python truthiness of a JSON value (used by the or-chains in
extract_artifact_id). -/
def jsonFalsy : Json → Bool
  | .null => true
  | .bool b => !b
  | .num n => n = 0
  | .str s => s.isEmpty
  | .arr xs => xs.isEmpty
  | .obj kvs => kvs.isEmpty

/-- Python d.get(k1) or d.get(k2): the second lookup is used when the
first is absent or falsy. -/
def pyGetOr (d : List (String × Json)) (k1 k2 : String) : Option Json :=
  match objGet d k1 with
  | none => objGet d k2
  | some v => if jsonFalsy v then objGet d k2 else some v

/-- Python isinstance(x, str) and x.strip() followed by returning
x.strip(): a present, non-blank string value, stripped. -/
def strCand : Option Json → Option String
  | some (.str s) => if (pyStrip s).isEmpty then none else some (pyStrip s)
  | _ => none

/-- Nested-dict sweep of extract_artifact_id: for each candidate key in
order, when its value is a dict, take its artifact_id or id member when
that is a non-blank string. -/
def nestedIdLookup (d : List (String × Json)) : List String → Option String
  | [] => none
  | k :: ks =>
    match objGet d k with
    | some (.obj sub) =>
      match strCand (pyGetOr sub "artifact_id" "id") with
      | some v => some v
      | none => nestedIdLookup d ks
    | _ => nestedIdLookup d ks

/-- Top-level dict branch of extract_artifact_id. -/
def extractFromDict (d : List (String × Json)) : Option String :=
  match strCand (objGet d "artifact_id") with
  | some v => some v
  | none =>
    match strCand (objGet d "id") with
    | some v => some v
    | none => nestedIdLookup d ["artifact", "result", "data"]

/-- Whitespace matched by a regex backslash-s class (ASCII portion). -/
def isReWs (c : Char) : Bool :=
  c = ' ' || c = '\t' || c = '\n' || c = '\r' || c = '\x0b' || c = '\x0c'

/-- Word characters for regex word boundaries (ASCII portion). -/
def isWordChar (c : Char) : Bool :=
  c.isAlpha || c.isDigit || c = '_'

def isHexOrDash (c : Char) : Bool := isHexDigit c || c = '-'

/-- Case-insensitive literal match: strip the given pattern (already
lower-case) from the head of the input, folding input letters to lower
case. -/
def ciStripLit : List Char → List Char → Option (List Char)
  | [], cs => some cs
  | _ :: _, [] => none
  | p :: ps, c :: cs => if c.toLower = p then ciStripLit ps cs else none

/-- Match, at the head of the input, the regex
Artifact ID: backslash-s-star ([0-9a-fA-F-] times 36) with re.I:
the case-insensitive literal, optional whitespace, then exactly 36
hex-or-dash characters (the capture group). -/
def matchArtifactIdAt (cs : List Char) : Option String :=
  match ciStripLit ("artifact id:".data) cs with
  | none => none
  | some r1 =>
    let r2 := r1.dropWhile isReWs
    let cand := r2.take 36
    if cand.length = 36 && cand.all isHexOrDash then some (String.mk cand) else none

/-- re.search for the Artifact ID pattern: leftmost match wins. -/
def searchArtifactId : List Char → Option String
  | [] => none
  | c :: rest =>
    match matchArtifactIdAt (c :: rest) with
    | some v => some v
    | none => searchArtifactId rest

/-- Take exactly n hex digits from the head of the input. -/
def takeHex (n : Nat) (cs : List Char) : Option (List Char × List Char) :=
  let pre := cs.take n
  if pre.length = n && pre.all isHexDigit then some (pre, cs.drop n) else none

/-- Match, at the head of the input, the UUID body 8-4-4-4-12 followed by
a word boundary (next character absent or not a word character). -/
def matchUuidAt (cs : List Char) : Option String :=
  match takeHex 8 cs with
  | none => none
  | some (a, r1) =>
    match r1 with
    | '-' :: r2 =>
      match takeHex 4 r2 with
      | none => none
      | some (b, r3) =>
        match r3 with
        | '-' :: r4 =>
          match takeHex 4 r4 with
          | none => none
          | some (c, r5) =>
            match r5 with
            | '-' :: r6 =>
              match takeHex 4 r6 with
              | none => none
              | some (d, r7) =>
                match r7 with
                | '-' :: r8 =>
                  match takeHex 12 r8 with
                  | none => none
                  | some (e, r9) =>
                    let boundary := match r9 with
                      | [] => true
                      | c2 :: _ => ¬ isWordChar c2
                    if boundary then
                      some (String.mk (a ++ '-' :: b ++ '-' :: c ++ '-' :: d ++ '-' :: e))
                    else none
                | _ => none
            | _ => none
        | _ => none
    | _ => none

/-- re.search for the word-bounded UUID pattern: try each start position
left to right, requiring the previous character (when any) to not be a
word character. -/
def searchUuid : Option Char → List Char → Option String
  | _, [] => none
  | prev, c :: rest =>
    let startOk := match prev with
      | none => true
      | some p => ¬ isWordChar p
    match (if startOk then matchUuidAt (c :: rest) else none) with
    | some v => some v
    | none => searchUuid (some c) rest

/-- extract_artifact_id from guarded_generate.py: structured JSON lookup
(top-level artifact_id/id, nested artifact/result/data dicts, or rows of
a list), then the Artifact ID regex, then the bare UUID regex. -/
def extract_artifact_id (raw : String) : Option String :=
  let fromJson : Option String :=
    match jload raw with
    | some (.obj d) => extractFromDict d
    | some (.arr rows) =>
      rows.findSome? (fun r =>
        match r with
        | .obj d => strCand (pyGetOr d "artifact_id" "id")
        | _ => none)
    | _ => none
  match fromJson with
  | some v => some v
  | none =>
    match searchArtifactId raw.data with
    | some v => some v
    | none => searchUuid none raw.data

/-! Guard state: daily budget counters and per-type circuit breakers
(guarded_generate.py).  Timestamps are modelled as integer seconds;
timedelta(minutes=m) is 60 * m seconds. -/

/-- The daily section of the guard state. -/
structure DailyState where
  date : String
  totalUsed : Nat
  perType : List (String × Nat)
deriving DecidableEq

/-- Python per.get(t, 0). -/
def perTypeGet (per : List (String × Nat)) (t : String) : Nat :=
  (((per.find? (fun p => p.1 = t))).map (fun p => p.2)).getD 0

/-- Python per[t] = per.get(t, 0) + 1 (dict assignment: replace in place
when present, append otherwise). -/
def perTypeBump (per : List (String × Nat)) (t : String) : List (String × Nat) :=
  if per.any (fun p => p.1 = t) then
    per.map (fun p => if p.1 = t then (t, p.2 + 1) else p)
  else
    per ++ [(t, perTypeGet per t + 1)]

/-- consume_budget from guarded_generate.py: increment the daily total
and the per-type counter unconditionally. -/
def consume_budget (d : DailyState) (t : String) : DailyState :=
  { d with totalUsed := d.totalUsed + 1, perType := perTypeBump d.perType t }

/-- budget_allowed from guarded_generate.py: refuse when a positive total
budget is used up, then refuse when a configured non-negative per-type
limit is used up; allow otherwise. -/
def budget_allowed (d : DailyState) (t : String) (dailyBudgetTotal : Int)
    (perTypeBudget : List (String × Int)) : Bool × Option String :=
  if dailyBudgetTotal > 0 && (d.totalUsed : Int) ≥ dailyBudgetTotal then
    (false, some "daily_total_budget_exhausted")
  else
    match (perTypeBudget.find? (fun p => p.1 = t)).map (fun p => p.2) with
    | some typeLimit =>
      if typeLimit ≥ 0 && (perTypeGet d.perType t : Int) ≥ typeLimit then
        (false, some ("daily_" ++ t ++ "_budget_exhausted"))
      else (true, none)
    | none => (true, none)

/-- A breaker entry, with the defaults Python's dict.get supplies for a
fresh empty entry. -/
structure BreakerEntry where
  consecutiveFailures : Nat
  openUntil : Option Int
  lastFailureAt : Option Int
  lastSuccessAt : Option Int
deriving DecidableEq

def emptyBreakerEntry : BreakerEntry :=
  { consecutiveFailures := 0, openUntil := none, lastFailureAt := none, lastSuccessAt := none }

/-- Python state breaker.get(t, empty) / setdefault(t, empty). -/
def breakerGet (br : List (String × BreakerEntry)) (t : String) : BreakerEntry :=
  (((br.find? (fun p => p.1 = t))).map (fun p => p.2)).getD emptyBreakerEntry

/-- Write a breaker entry back (dict assignment). -/
def breakerSet (br : List (String × BreakerEntry)) (t : String) (e : BreakerEntry) :
    List (String × BreakerEntry) :=
  if br.any (fun p => p.1 = t) then
    br.map (fun p => if p.1 = t then (t, e) else p)
  else
    br ++ [(t, e)]

/-- breaker_status from guarded_generate.py: the breaker for a type is
open exactly when its open_until is set and lies in the future; the skip
reason carries the remaining seconds. -/
def breaker_status (br : List (String × BreakerEntry)) (t : String) (now : Int) :
    Bool × Option String :=
  match (breakerGet br t).openUntil with
  | none => (false, none)
  | some dt =>
    if dt > now then (true, some ("breaker_open_" ++ toString (dt - now) ++ "s"))
    else (false, none)

/-- breaker_record_success from guarded_generate.py: zero the streak,
clear open_until, stamp last_success_at. -/
def breaker_record_success (br : List (String × BreakerEntry)) (t : String) (now : Int) :
    List (String × BreakerEntry) :=
  let b := breakerGet br t
  breakerSet br t { b with consecutiveFailures := 0, openUntil := none, lastSuccessAt := some now }

/-- breaker_record_failure from guarded_generate.py: bump the streak,
stamp last_failure_at, and open until now + open_minutes when the streak
reaches a positive threshold. -/
def breaker_record_failure (br : List (String × BreakerEntry)) (t : String)
    (threshold : Int) (openMinutes : Int) (now : Int) : List (String × BreakerEntry) :=
  let b := breakerGet br t
  let cf := b.consecutiveFailures + 1
  let b2 := { b with consecutiveFailures := cf, lastFailureAt := some now }
  let b3 :=
    if threshold > 0 && (cf : Int) ≥ threshold then
      { b2 with openUntil := some (now + 60 * openMinutes) }
    else b2
  breakerSet br t b3

/-- The persisted guard state (daily counters, breakers, and the status
recorded in last_run). -/
structure GuardState where
  daily : DailyState
  breaker : List (String × BreakerEntry)
  lastRunStatus : Option String
deriving DecidableEq

/-- maybe_reset_daily from guarded_generate.py: when the stored date is
not today, replace the daily section with fresh zero counters. -/
def maybe_reset_daily (today : String) (st : GuardState) : GuardState :=
  if st.daily.date ≠ today then
    { st with daily := { date := today, totalUsed := 0, perType := [] } }
  else st

/-! Run-manifest state machine (bookflow/core/state_machine.py). -/

/-- The fields of RunManifest that the transition function reads or
writes, plus an identity field untouched by transitions. -/
structure RunManifest where
  runId : String
  status : String
  updatedAt : Nat
deriving DecidableEq

/-- RunManifest.touch: refresh updated_at to the current time. -/
def touchManifest (m : RunManifest) (now : Nat) : RunManifest :=
  { m with updatedAt := now }

/-- The allowed-transition table from state_machine.py, with the empty
set that dict.get supplies for unknown states. -/
def allowedTransitions (s : String) : List String :=
  if s = "started" then ["fetched", "prepared", "failed"]
  else if s = "fetched" then ["prepared", "failed"]
  else if s = "prepared" then ["awaiting_chapter_selection", "generating", "completed", "failed"]
  else if s = "awaiting_chapter_selection" then ["generating", "failed"]
  else if s = "generating" then ["completed", "partial", "failed"]
  else if s = "partial" then ["generating", "completed", "failed"]
  else []

/-- can_transition from state_machine.py. -/
def can_transition (current target : String) : Bool :=
  (allowedTransitions current).contains target

/-- transition from state_machine.py: a same-state transition only
touches; an allowed transition updates status and touches; anything else
raises and leaves the manifest untouched. -/
def transition (m : RunManifest) (target : String) (now : Nat) :
    Except String RunManifest :=
  if m.status = target then
    Except.ok (touchManifest m now)
  else if ¬ can_transition m.status target then
    Except.error ("Illegal state transition: " ++ m.status ++ " -> " ++ target)
  else
    Except.ok (touchManifest { m with status := target } now)

/-! Status normalization and the poll loop (guarded_generate.py).  A raw
status value read from a studio row is an integer code, a string, or
absent. -/

/-- A raw status field value. -/
inductive RawStatus where
  | missing : RawStatus
  | int : Int → RawStatus
  | str : String → RawStatus
deriving DecidableEq

/-- STATUS_MAP from guarded_generate.py. -/
def STATUS_MAP (n : Int) : Option String :=
  if n = 1 then some "in_progress"
  else if n = 3 then some "completed"
  else if n = 4 then some "failed"
  else none

def SUCCESS_STATES : List String := ["completed", "done", "ready", "succeeded"]

def FAIL_STATES : List String := ["failed", "error"]

/-- normalize_status from guarded_generate.py: absent becomes unknown,
known integer codes map through STATUS_MAP and unknown integers become
their decimal string, strings are stripped, lower-cased and aliased. -/
def normalize_status (raw : RawStatus) : String :=
  match raw with
  | .missing => "unknown"
  | .int n => (STATUS_MAP n).getD (toString n)
  | .str s =>
    let text := pyLower (pyStrip s)
    let aliasTable : List (String × String) :=
      [("complete", "completed"), ("success", "completed"), ("succeeded", "completed"),
       ("in progress", "in_progress"), ("running", "in_progress")]
    (((aliasTable.find? (fun p => p.1 = text))).map (fun p => p.2)).getD text

/-- What one iteration of the poll loop observes: a listing error, rows
without the artifact, or the matching row's status/state field. -/
inductive PollObs where
  | err : PollObs
  | noRow : PollObs
  | row : RawStatus → PollObs
deriving DecidableEq

/-- The poll loop of poll_artifact_status, walking observation i, i+1,
... with the given fuel (max_polls remaining) and the last seen
normalized status. -/
def pollGo (obs : Nat → PollObs) : Nat → Nat → String → String × Option String
  | _, 0, last => ("timeout", some ("poll_timeout_last=" ++ last))
  | i, fuel + 1, last =>
    match obs i with
    | .err => pollGo obs (i + 1) fuel last
    | .noRow => pollGo obs (i + 1) fuel last
    | .row raw =>
      let status := normalize_status raw
      if SUCCESS_STATES.contains status then ("completed", none)
      else if FAIL_STATES.contains status then ("failed", none)
      else pollGo obs (i + 1) fuel status

/-- poll_artifact_status from guarded_generate.py, with the studio
listing responses abstracted as a sequence of observations. -/
def poll_artifact_status (obs : Nat → PollObs) (maxPolls : Nat) : String × Option String :=
  pollGo obs 0 maxPolls "unknown"

/-! The guarded-generation orchestrator main loop (guarded_generate.py,
main).  External CLI interactions are abstracted by a per-iteration
environment: the create command result and the poll outcome. -/

/-- The result of the create subprocess for one attempt. -/
inductive CreateResult where
  | fail : String → CreateResult
  | ok : String → CreateResult
deriving DecidableEq

/-- The poll outcome for one attempt (first component of
poll_artifact_status). -/
inductive PollFinal where
  | completed : PollFinal
  | failed : PollFinal
  | timeout : PollFinal
deriving DecidableEq

def PollFinal.toOutcome : PollFinal → String
  | .completed => "completed"
  | .failed => "failed"
  | .timeout => "timeout"

/-- The environment one plan iteration runs in: the wall-clock time and
the external results it would observe. -/
structure StepEnv where
  time : Int
  create : CreateResult
  poll : PollFinal

/-- One recorded attempt or skip row (the fields the claims mention). -/
structure AttemptRow where
  artifactType : String
  outcome : String
  artifactId : Option String
deriving DecidableEq

/-- The orchestrator configuration taken from the command line. -/
structure OrchArgs where
  maxSuccess : Int
  dailyBudgetTotal : Int
  perTypeBudget : List (String × Int)
  breakerThreshold : Int
  breakerOpenMinutes : Int

/-- The mutable state of the plan loop. -/
structure RunState where
  daily : DailyState
  breaker : List (String × BreakerEntry)
  attempts : List AttemptRow
  successes : List AttemptRow
  skipped : List AttemptRow
deriving DecidableEq

/-- The outcome of one plan iteration: the updated loop state and
whether the poll loop was entered. -/
structure StepResult where
  state : RunState
  enteredPoll : Bool
deriving DecidableEq

/-- One iteration of the plan loop of main (after the max-success break
check): budget gate, breaker gate, budget consumption, create, artifact
id extraction, poll, breaker bookkeeping, and row recording. -/
def stepAttempt (args : OrchArgs) (env : StepEnv) (st : RunState) (t : String) :
    StepResult :=
  match budget_allowed st.daily t args.dailyBudgetTotal args.perTypeBudget with
  | (false, _) =>
    { state := { st with skipped := st.skipped ++ [{ artifactType := t, outcome := "skipped", artifactId := none }] }
      enteredPoll := false }
  | (true, _) =>
    if (breaker_status st.breaker t env.time).1 then
      { state := { st with skipped := st.skipped ++ [{ artifactType := t, outcome := "skipped", artifactId := none }] }
        enteredPoll := false }
    else
      let st1 := { st with daily := consume_budget st.daily t }
      match env.create with
      | .fail _ =>
        { state :=
            { st1 with
              breaker := breaker_record_failure st1.breaker t args.breakerThreshold args.breakerOpenMinutes env.time
              attempts := st1.attempts ++ [{ artifactType := t, outcome := "create_failed", artifactId := none }] }
          enteredPoll := false }
      | .ok out =>
        match extract_artifact_id out with
        | none =>
          { state :=
              { st1 with
                breaker := breaker_record_failure st1.breaker t args.breakerThreshold args.breakerOpenMinutes env.time
                attempts := st1.attempts ++ [{ artifactType := t, outcome := "create_failed_no_artifact", artifactId := none }] }
            enteredPoll := false }
        | some aid =>
          match env.poll with
          | .completed =>
            let row : AttemptRow := { artifactType := t, outcome := "completed", artifactId := some aid }
            { state :=
                { st1 with
                  breaker := breaker_record_success st1.breaker t env.time
                  attempts := st1.attempts ++ [row]
                  successes := st1.successes ++ [row] }
              enteredPoll := true }
          | outcome =>
            { state :=
                { st1 with
                  breaker := breaker_record_failure st1.breaker t args.breakerThreshold args.breakerOpenMinutes env.time
                  attempts := st1.attempts ++ [{ artifactType := t, outcome := outcome.toOutcome, artifactId := none }] }
              enteredPoll := true }

/-- The plan loop of main: before each artifact type, stop outright when
a positive max_success is reached; otherwise run one iteration. -/
def runPlan (args : OrchArgs) (env : Nat → StepEnv) :
    Nat → RunState → List String → RunState
  | _, st, [] => st
  | i, st, t :: rest =>
    if args.maxSuccess > 0 && (st.successes.length : Int) ≥ args.maxSuccess then st
    else runPlan args env (i + 1) (stepAttempt args (env i) st t).state rest

/-- The final status computed by main: ok when successes reach
max(1, max_success), else degraded when any success, else failed. -/
def finalStatus (successes : List AttemptRow) (maxSuccess : Int) : String :=
  if (successes.length : Int) ≥ max 1 maxSuccess then "ok"
  else if ¬ successes.isEmpty then "degraded"
  else "failed"

/-! Preflight and the failed-preflight path of main
(guarded_generate.py). -/

/-- The external results preflight observes: the version probe, the auth
check (after any auto-refresh), and the source listing. -/
structure PreflightEnv where
  versionOk : Bool
  versionDetail : String
  loginOk : Bool
  loginDetail : String
  sourceList : Except String (List String)

/-- The preflight report (the fields the claims mention). -/
structure PreflightReport where
  ok : Bool
  reason : Option String
  detail : Option String
  resolvedSourceCount : Option Nat
deriving DecidableEq

/-- preflight from guarded_generate.py: version probe, auth check,
source resolution when no ids were supplied, and a non-empty-source
requirement. -/
def preflight (env : PreflightEnv) (sourceIds : List String) :
    Bool × PreflightReport :=
  if ¬ env.versionOk then
    (false, { ok := false, reason := some "nlm_not_available",
              detail := some env.versionDetail, resolvedSourceCount := none })
  else if ¬ env.loginOk then
    (false, { ok := false, reason := some "auth_required",
              detail := some env.loginDetail, resolvedSourceCount := none })
  else
    match (if sourceIds.isEmpty then env.sourceList else Except.ok sourceIds) with
    | Except.error e =>
      (false, { ok := false, reason := some "source_list_failed",
                detail := some e, resolvedSourceCount := none })
    | Except.ok ids =>
      if ids.isEmpty then
        (false, { ok := false, reason := some "no_sources",
                  detail := some "Notebook has no sources.", resolvedSourceCount := none })
      else
        (true, { ok := true, reason := none, detail := none,
                 resolvedSourceCount := some ids.length })

/-- The summary printed by the failed-preflight early return of main,
together with the guard state written to disk there. -/
structure PreflightFailureResult where
  summaryStatus : String
  summaryReason : Option String
  summaryDetail : Option String
  state : GuardState
deriving DecidableEq

/-- main from guarded_generate.py up to the failed-preflight early
return: load and normalize the state, apply the daily reset, run
preflight; on failure record last_run.status and return the summary.
Yields nothing when preflight passes (main then continues to the plan
loop). -/
def runMainPreflight (today : String) (st0 : GuardState) (env : PreflightEnv)
    (sourceIds : List String) : Option PreflightFailureResult :=
  let st1 := maybe_reset_daily today st0
  match preflight env sourceIds with
  | (true, _) => none
  | (false, report) =>
    some { summaryStatus := "failed_preflight"
           summaryReason := report.reason
           summaryDetail := report.detail
           state := { st1 with lastRunStatus := some "failed_preflight" } }

/-! Source-resolution caching (run_book_to_artifact.py, main; store
lookup in bookflow/store/db.py).  String-to-string maps are Python dicts
modelled as association lists with unique keys. -/

/-- Python dict.get on a string map. -/
def dget (d : List (String × String)) (k : String) : Option String :=
  ((d.find? (fun p => p.1 = k))).map (fun p => p.2)

/-- Python dict assignment on a string map. -/
def dput (d : List (String × String)) (k v : String) : List (String × String) :=
  if d.any (fun p => p.1 = k) then
    d.map (fun p => if p.1 = k then (k, v) else p)
  else
    d ++ [(k, v)]

/-- Python dict.update: fold the fresh entries into a copy of the base
map, fresh entries replacing base entries on key collision. -/
def dictUpdate (base fresh : List (String × String)) : List (String × String) :=
  fresh.foldl (fun acc p => dput acc p.1 p.2) base

/-- The chapter ids that trigger a live lookup: those whose cached entry
is missing or blank after stripping. -/
def unresolvedChapterIds (cached : List (String × String)) (chapterIds : List String) :
    List String :=
  chapterIds.filter (fun cid => (pyStrip ((dget cached cid).getD "")).isEmpty)

/-- The live-resolved map built from the resolver's answers for the
unresolved chapters only, keeping non-blank ids. -/
def liveSourceMap (resolver : String → String) (unresolved : List String) :
    List (String × String) :=
  unresolved.foldl
    (fun acc cid =>
      let sid := pyStrip (resolver cid)
      if sid.isEmpty then acc else dput acc cid sid)
    []

/-- The effective source map of main: the cached map overlaid with the
live map, live entries winning. -/
def effectiveSourceMap (cached live : List (String × String)) : List (String × String) :=
  dictUpdate cached live

/-! Guard-state loading (read_json, default_state and normalize_state in
guarded_generate.py), at the JSON level. -/

/-- Python setdefault on a JSON object: keep a present key, append the
default otherwise. -/
def objSetDefault (kvs : List (String × Json)) (k : String) (v : Json) :
    List (String × Json) :=
  if ((kvs.find? (fun p => p.1 = k))).isSome then kvs else kvs ++ [(k, v)]

/-- default_state from guarded_generate.py. -/
def default_state (today : String) : Json :=
  Json.obj
    [("schema_version", Json.num 1),
     ("daily", Json.obj
        [("date", Json.str today), ("total_used", Json.num 0), ("per_type", Json.obj [])]),
     ("breaker", Json.obj []),
     ("last_run", Json.obj [])]

/-- The daily statement of normalize_state: a missing or non-dict daily
section is replaced whole, while a dict daily gets its three keys
defaulted in place. -/
def normalizeDaily (today : String) (kvs : List (String × Json)) :
    List (String × Json) :=
  match objGet kvs "daily" with
  | some (Json.obj d) =>
    objSet kvs "daily" (Json.obj
      (objSetDefault
        (objSetDefault
          (objSetDefault d "date" (Json.str today))
          "total_used" (Json.num 0))
        "per_type" (Json.obj [])))
  | _ =>
    objSet kvs "daily" (Json.obj
      [("date", Json.str today), ("total_used", Json.num 0), ("per_type", Json.obj [])])

/-- The breaker and last_run statements of normalize_state: a missing or
non-dict section becomes an empty dict, a dict section is kept. -/
def normalizeSection (kvs : List (String × Json)) (key : String) :
    List (String × Json) :=
  match objGet kvs key with
  | some (Json.obj _) => kvs
  | _ => objSet kvs key (Json.obj [])

/-- normalize_state from guarded_generate.py: a non-dict becomes an empty
dict; schema_version is defaulted; then the daily, breaker and last_run
statements run in order. -/
def normalize_state (today : String) (j : Json) : Json :=
  let kvs := match j with
    | Json.obj kvs => kvs
    | _ => []
  let kvs := objSetDefault kvs "schema_version" (Json.num 1)
  let kvs := normalizeDaily today kvs
  let kvs := normalizeSection kvs "breaker"
  let kvs := normalizeSection kvs "last_run"
  Json.obj kvs

/-- State loading in main: read_json falls back to default_state when the
file is missing or does not parse as JSON, and the result is normalized.
The file content is given as nothing (missing file) or the raw text. -/
def loadGuardState (today : String) (content : Option String) : Json :=
  let parsed := match content with
    | none => default_state today
    | some s => (jsonLoads s).getD (default_state today)
  normalize_state today parsed

/-- Well-formedness of a loaded guard state: a dict with schema_version,
a daily dict holding date, total_used and per_type, and dict breaker and
last_run sections. -/
def wellFormedGuardState (j : Json) : Bool :=
  match j with
  | Json.obj kvs =>
    (objGet kvs "schema_version").isSome &&
    (match objGet kvs "daily" with
     | some (Json.obj d) =>
       (objGet d "date").isSome && (objGet d "total_used").isSome &&
         (objGet d "per_type").isSome
     | _ => false) &&
    (match objGet kvs "breaker" with
     | some (Json.obj _) => true
     | _ => false) &&
    (match objGet kvs "last_run" with
     | some (Json.obj _) => true
     | _ => false)
  | _ => false

/-! Auxiliary definitions for the budget-gate claim. -/

/-- The budget-gate allow condition in the exact form the specification
words it, for comparison with budget_allowed: allowed when
(total_used < daily_budget_total OR daily_budget_total <= 0) AND
(per_type_used[type] < per_type_budget[type] OR no limit configured). -/
def specBudgetAllowed (d : DailyState) (t : String) (dailyBudgetTotal : Int)
    (perTypeBudget : List (String × Int)) : Bool :=
  (decide ((d.totalUsed : Int) < dailyBudgetTotal) || decide (dailyBudgetTotal ≤ 0)) &&
  (match (perTypeBudget.find? (fun p => p.1 = t)).map (fun p => p.2) with
   | none => true
   | some typeLimit => decide ((perTypeGet d.perType t : Int) < typeLimit))

/-- One gated attempt as the plan loop composes the budget gate with
consumption: consume exactly when allowed, and report whether the gate
passed. -/
def budgetStep (dailyBudgetTotal : Int) (perTypeBudget : List (String × Int))
    (d : DailyState) (t : String) : DailyState × Bool :=
  if (budget_allowed d t dailyBudgetTotal perTypeBudget).1 then
    (consume_budget d t, true)
  else (d, false)

/-- A same-day sequence of attempts through the budget gate, returning
the final counters and the per-attempt gate decisions in order. -/
def budgetRun (dailyBudgetTotal : Int) (perTypeBudget : List (String × Int)) :
    DailyState → List String → DailyState × List (String × Bool)
  | d, [] => (d, [])
  | d, t :: ts =>
    let step := budgetStep dailyBudgetTotal perTypeBudget d t
    let rest := budgetRun dailyBudgetTotal perTypeBudget step.1 ts
    (rest.1, (t, step.2) :: rest.2)

/-! Helper lemmas about the association-list operations that model
Python dict assignment and lookup. -/

theorem find?_map_bump (per : List (String × Nat)) (t : String) :
    (per.map (fun p => if p.1 = t then (t, p.2 + 1) else p)).find? (fun p => p.1 = t)
      = (per.find? (fun p => p.1 = t)).map (fun p => (t, p.2 + 1)) := by
  induction per with
  | nil => rfl
  | cons p ps ih =>
    by_cases h : p.1 = t
    · simp [List.find?, h]
    · simp [List.find?, h, ih]

theorem find?_map_bump_ne (per : List (String × Nat)) (t u : String) (hne : u ≠ t) :
    (per.map (fun p => if p.1 = t then (t, p.2 + 1) else p)).find? (fun p => p.1 = u)
      = per.find? (fun p => p.1 = u) := by
  induction per with
  | nil => rfl
  | cons p ps ih =>
    by_cases h : p.1 = t
    · have h2 : ¬ ((t : String) = u) := fun hh => hne hh.symm
      have h3 : ¬ (p.1 = u) := by rw [h]; exact h2
      simp [List.find?, h, h2, h3, ih]
    · by_cases h4 : p.1 = u
      · simp [List.find?, h, h4, hne]
      · simp [List.find?, h, h4, ih]

theorem perTypeGet_bump_self (per : List (String × Nat)) (t : String) :
    perTypeGet (perTypeBump per t) t = perTypeGet per t + 1 := by
  unfold perTypeBump
  by_cases h : per.any (fun p => p.1 = t)
  · simp only [h, if_true, perTypeGet, find?_map_bump]
    rcases hf : per.find? (fun p => p.1 = t) with _ | p
    · rw [List.find?_eq_none] at hf
      rw [List.any_eq_true] at h
      obtain ⟨x, hx, hpx⟩ := h
      exact absurd hpx (by simpa using hf x hx)
    · simp [hf]
  · simp only [h, if_false, Bool.false_eq_true, perTypeGet]
    rw [List.find?_append]
    have hn : per.find? (fun p => p.1 = t) = none := by
      rw [List.find?_eq_none]
      intro x hx hpx
      exact h (List.any_eq_true.mpr ⟨x, hx, hpx⟩)
    simp [hn, List.find?, perTypeGet]

theorem perTypeGet_bump_ne (per : List (String × Nat)) (t u : String) (hne : u ≠ t) :
    perTypeGet (perTypeBump per t) u = perTypeGet per u := by
  unfold perTypeBump
  by_cases h : per.any (fun p => p.1 = t)
  · simp only [h, if_true, perTypeGet, find?_map_bump_ne per t u hne]
  · simp only [h, if_false, Bool.false_eq_true, perTypeGet]
    rw [List.find?_append]
    have h2 : ¬ ((t : String) = u) := fun hh => hne hh.symm
    simp [List.find?, h2]

theorem find?_map_setval {β : Type} (l : List (String × β)) (t : String) (e : β) :
    (l.map (fun p => if p.1 = t then (t, e) else p)).find? (fun p => p.1 = t)
      = (l.find? (fun p => p.1 = t)).map (fun _ => (t, e)) := by
  induction l with
  | nil => rfl
  | cons p ps ih =>
    by_cases h : p.1 = t
    · simp [List.find?, h]
    · simp [List.find?, h, ih]

theorem find?_map_setval_ne {β : Type} (l : List (String × β)) (t u : String) (e : β)
    (hne : u ≠ t) :
    (l.map (fun p => if p.1 = t then (t, e) else p)).find? (fun p => p.1 = u)
      = l.find? (fun p => p.1 = u) := by
  induction l with
  | nil => rfl
  | cons p ps ih =>
    by_cases h : p.1 = t
    · have h2 : ¬ ((t : String) = u) := fun hh => hne hh.symm
      have h3 : ¬ (p.1 = u) := by rw [h]; exact h2
      simp [List.find?, h, h2, h3, ih]
    · by_cases h4 : p.1 = u
      · simp [List.find?, h, h4, hne]
      · simp [List.find?, h, h4, ih]

theorem find?_none_of_any_false {β : Type} (l : List (String × β)) (t : String)
    (h : l.any (fun p => p.1 = t) = false) :
    l.find? (fun p => p.1 = t) = none := by
  rw [List.find?_eq_none]
  intro x hx hpx
  rw [← Bool.not_eq_true] at h
  exact h (List.any_eq_true.mpr ⟨x, hx, hpx⟩)

theorem breakerGet_set_self (br : List (String × BreakerEntry)) (t : String)
    (e : BreakerEntry) : breakerGet (breakerSet br t e) t = e := by
  unfold breakerSet breakerGet
  by_cases h : br.any (fun p => p.1 = t)
  · simp only [h, if_true, find?_map_setval]
    rcases hf : br.find? (fun p => p.1 = t) with _ | p
    · rw [List.find?_eq_none] at hf
      rw [List.any_eq_true] at h
      obtain ⟨x, hx, hpx⟩ := h
      exact absurd hpx (by simpa using hf x hx)
    · simp [hf]
  · have hfalse : br.any (fun p => p.1 = t) = false := Bool.eq_false_iff.mpr h
    have hn := find?_none_of_any_false br t hfalse
    simp only [hfalse, Bool.false_eq_true, if_false]
    rw [List.find?_append, hn]
    simp [List.find?]

theorem dget_dput_self (d : List (String × String)) (k v : String) :
    dget (dput d k v) k = some v := by
  unfold dput dget
  by_cases h : d.any (fun p => p.1 = k)
  · simp only [h, if_true, find?_map_setval]
    rcases hf : d.find? (fun p => p.1 = k) with _ | p
    · rw [List.find?_eq_none] at hf
      rw [List.any_eq_true] at h
      obtain ⟨x, hx, hpx⟩ := h
      exact absurd hpx (by simpa using hf x hx)
    · simp [hf]
  · have hfalse : d.any (fun p => p.1 = k) = false := Bool.eq_false_iff.mpr h
    have hn := find?_none_of_any_false d k hfalse
    simp only [hfalse, Bool.false_eq_true, if_false]
    rw [List.find?_append, hn]
    simp [List.find?]

theorem dget_dput_ne (d : List (String × String)) (k v u : String) (hne : u ≠ k) :
    dget (dput d k v) u = dget d u := by
  unfold dput dget
  by_cases h : d.any (fun p => p.1 = k)
  · simp only [h, if_true, find?_map_setval_ne d k u v hne]
  · simp only [h, if_false, Bool.false_eq_true]
    rw [List.find?_append]
    have h2 : ¬ ((k : String) = u) := fun hh => hne hh.symm
    simp [List.find?, h2]

theorem objGet_objSet_self (kvs : List (String × Json)) (k : String) (v : Json) :
    objGet (objSet kvs k v) k = some v := by
  unfold objSet objGet
  by_cases h : kvs.any (fun p => p.1 = k)
  · simp only [h, if_true, find?_map_setval]
    rcases hf : kvs.find? (fun p => p.1 = k) with _ | p
    · rw [List.find?_eq_none] at hf
      rw [List.any_eq_true] at h
      obtain ⟨x, hx, hpx⟩ := h
      exact absurd hpx (by simpa using hf x hx)
    · simp [hf]
  · have hfalse : kvs.any (fun p => p.1 = k) = false := Bool.eq_false_iff.mpr h
    have hn := find?_none_of_any_false kvs k hfalse
    simp only [hfalse, Bool.false_eq_true, if_false]
    rw [List.find?_append, hn]
    simp [List.find?]

theorem objGet_objSet_ne (kvs : List (String × Json)) (k : String) (v : Json)
    (u : String) (hne : u ≠ k) : objGet (objSet kvs k v) u = objGet kvs u := by
  unfold objSet objGet
  by_cases h : kvs.any (fun p => p.1 = k)
  · simp only [h, if_true, find?_map_setval_ne kvs k u v hne]
  · simp only [h, if_false, Bool.false_eq_true]
    rw [List.find?_append]
    have h2 : ¬ ((k : String) = u) := fun hh => hne hh.symm
    simp [List.find?, h2]

theorem objGet_objSetDefault_isSome (kvs : List (String × Json)) (k : String) (v : Json) :
    (objGet (objSetDefault kvs k v) k).isSome := by
  unfold objSetDefault
  by_cases h : ((kvs.find? (fun p => p.1 = k))).isSome
  · simp [objGet, h]
  · simp only [h, if_false, Bool.false_eq_true, objGet]
    rw [List.find?_append]
    rcases hf : kvs.find? (fun p => p.1 = k) with _ | p
    · simp [List.find?]
    · simp [hf] at h

theorem objGet_objSetDefault_ne (kvs : List (String × Json)) (k : String) (v : Json)
    (u : String) (hne : u ≠ k) : objGet (objSetDefault kvs k v) u = objGet kvs u := by
  unfold objSetDefault
  by_cases h : ((kvs.find? (fun p => p.1 = k))).isSome
  · simp [h]
  · simp only [h, if_false, Bool.false_eq_true, objGet]
    rw [List.find?_append]
    have h2 : ¬ ((k : String) = u) := fun hh => hne hh.symm
    simp [List.find?, h2]

/-! Budget-gate lemmas (C1). -/

theorem budget_allowed_iff (d : DailyState) (t : String) (total : Int)
    (per : List (String × Int)) :
    (budget_allowed d t total per).1 = true ↔
      ((total ≤ 0 ∨ (d.totalUsed : Int) < total) ∧
       ∀ limit, ((per.find? (fun p => p.1 = t)).map (fun p => p.2)) = some limit →
         limit < 0 ∨ (perTypeGet d.perType t : Int) < limit) := by
  unfold budget_allowed
  rcases hf : ((per.find? (fun p => p.1 = t)).map (fun p => p.2)) with _ | limit <;>
    simp only [hf] <;> split_ifs with h1 <;> simp_all <;> omega

theorem consume_budget_counts (d : DailyState) (t : String) :
    (consume_budget d t).totalUsed = d.totalUsed + 1 ∧
      perTypeGet (consume_budget d t).perType t = perTypeGet d.perType t + 1 :=
  ⟨rfl, perTypeGet_bump_self d.perType t⟩

theorem budgetRun_counts (total : Int) (per : List (String × Int)) (T : String) :
    ∀ (ts : List String) (d : DailyState),
      perTypeGet (budgetRun total per d ts).1.perType T =
        perTypeGet d.perType T +
          ((budgetRun total per d ts).2.filter (fun p => p.1 = T && p.2)).length ∧
      (budgetRun total per d ts).1.totalUsed =
        d.totalUsed + ((budgetRun total per d ts).2.filter (fun p => p.2)).length := by
  intro ts
  induction ts with
  | nil => intro d; simp [budgetRun]
  | cons t ts ih =>
    intro d
    simp only [budgetRun, budgetStep]
    by_cases hb : (budget_allowed d t total per).1 = true
    · simp only [hb, if_true]
      obtain ⟨ih1, ih2⟩ := ih (consume_budget d t)
      constructor
      · rw [ih1]
        by_cases ht : t = T
        · subst ht
          simp [consume_budget, perTypeGet_bump_self, List.filter]
          omega
        · simp [consume_budget, perTypeGet_bump_ne d.perType t T (fun hh => ht hh.symm),
                List.filter, ht]
      · rw [ih2]
        simp [consume_budget, List.filter]
        omega
    · simp only [Bool.not_eq_true] at hb
      simp only [hb, Bool.false_eq_true, if_false]
      obtain ⟨ih1, ih2⟩ := ih d
      constructor
      · rw [ih1]; simp [List.filter]
      · rw [ih2]; simp [List.filter]

/-! Breaker lemmas (C2). -/

/-- A run of recorded failures for one artifact type, each stamped with
its own time. -/
def recordFailures (br : List (String × BreakerEntry)) (t : String)
    (threshold openMinutes : Int) (times : List Int) : List (String × BreakerEntry) :=
  times.foldl (fun b τ => breaker_record_failure b t threshold openMinutes τ) br

theorem record_failure_cf (br : List (String × BreakerEntry)) (t : String)
    (th m τ : Int) :
    (breakerGet (breaker_record_failure br t th m τ) t).consecutiveFailures
      = (breakerGet br t).consecutiveFailures + 1 := by
  unfold breaker_record_failure
  rw [breakerGet_set_self]
  split_ifs <;> rfl

theorem recordFailures_cf (t : String) (th m : Int) :
    ∀ (times : List Int) (br : List (String × BreakerEntry)),
      (breakerGet (recordFailures br t th m times) t).consecutiveFailures
        = (breakerGet br t).consecutiveFailures + times.length := by
  intro times
  induction times with
  | nil => intro br; simp [recordFailures]
  | cons τ ts ih =>
    intro br
    simp only [recordFailures, List.foldl] at ih ⊢
    rw [ih, record_failure_cf]
    simp [List.length_cons]
    omega

theorem record_failure_open (br : List (String × BreakerEntry)) (t : String)
    (th m τ : Int) (hth : 0 < th)
    (hcf : th ≤ ((breakerGet br t).consecutiveFailures + 1 : Int)) :
    (breakerGet (breaker_record_failure br t th m τ) t).openUntil = some (τ + 60 * m) := by
  unfold breaker_record_failure
  rw [breakerGet_set_self]
  have hcond : (th > 0 && ((((breakerGet br t).consecutiveFailures + 1 : Nat) : Int) ≥ th)) = true := by
    simp only [Bool.and_eq_true, decide_eq_true_eq]
    constructor
    · exact hth
    · push_cast
      omega
  simp only [hcond, if_true]

theorem recordFailures_opens (t : String) (th m : Int) (ts : List Int) (τ : Int)
    (br : List (String × BreakerEntry)) (hth : 0 < th)
    (h0 : (breakerGet br t).consecutiveFailures = 0)
    (hlen : ((ts.length : Int) + 1) = th) :
    (breakerGet (recordFailures br t th m (ts ++ [τ])) t).openUntil = some (τ + 60 * m) := by
  unfold recordFailures
  rw [List.foldl_append]
  simp only [List.foldl]
  apply record_failure_open _ _ _ _ _ hth
  have hc := recordFailures_cf t th m ts br
  unfold recordFailures at hc
  rw [hc, h0]
  push_cast
  omega

theorem breaker_status_open (br : List (String × BreakerEntry)) (t : String)
    (now T : Int) (h : (breakerGet br t).openUntil = some T) (hlt : now < T) :
    (breaker_status br t now).1 = true := by
  unfold breaker_status
  rw [h]
  have hgt : T > now := hlt
  simp [hgt]

theorem record_success_entry (br : List (String × BreakerEntry)) (t : String) (now : Int) :
    (breakerGet (breaker_record_success br t now) t).consecutiveFailures = 0 ∧
      (breakerGet (breaker_record_success br t now) t).openUntil = none := by
  unfold breaker_record_success
  rw [breakerGet_set_self]
  exact ⟨rfl, rfl⟩

/-- C1 (counterexample): the budget-gate condition as the specification
words it disagrees with the code when a negative per-type limit is
configured: with zero usage, no total limit, and the configured limit
slides -1, budget_allowed allows the attempt while the worded formula
refuses it. -/
theorem C1_budget_gate_counterexample :
    (budget_allowed { date := "2026-10-12", totalUsed := 0, perType := [] } "slides" 0
        [("slides", -1)]).1 = true
    ∧ specBudgetAllowed { date := "2026-10-12", totalUsed := 0, perType := [] } "slides" 0
        [("slides", -1)] = false := by decide

/-- C1 (amended): the budget gate allows an attempt exactly when
(total_used < daily_budget_total OR daily_budget_total <= 0) AND
(per_type_used[T] < per_type_budget[T] OR no per-type limit is configured
OR the configured per-type limit is negative); every allowed attempt
increments total_used and per_type_used[T] by exactly one at attempt time
regardless of the attempt's later success or failure; and after any
same-day sequence the counters equal their initial values plus the number
of attempts that passed the gate (per type for per_type_used, overall for
total_used), skipped attempts never incrementing. -/
theorem C1_budget_gate_amended :
    (∀ d t total per,
       (budget_allowed d t total per).1 = true ↔
         ((total ≤ 0 ∨ (d.totalUsed : Int) < total) ∧
          ∀ limit, ((per.find? (fun p => p.1 = t)).map (fun p => p.2)) = some limit →
            limit < 0 ∨ (perTypeGet d.perType t : Int) < limit))
    ∧ (∀ d t, (consume_budget d t).totalUsed = d.totalUsed + 1 ∧
        perTypeGet (consume_budget d t).perType t = perTypeGet d.perType t + 1)
    ∧ (∀ total per T ts d,
        perTypeGet (budgetRun total per d ts).1.perType T =
          perTypeGet d.perType T +
            ((budgetRun total per d ts).2.filter (fun p => p.1 = T && p.2)).length ∧
        (budgetRun total per d ts).1.totalUsed =
          d.totalUsed + ((budgetRun total per d ts).2.filter (fun p => p.2)).length) :=
  ⟨budget_allowed_iff, consume_budget_counts,
   fun total per T ts d => budgetRun_counts total per T ts d⟩

/-- C1 (witness): the amended gate characterization and the consumption
increments evaluated at concrete inputs. -/
theorem C1_budget_gate_witness :
    (budget_allowed { date := "2026-10-12", totalUsed := 3, perType := [("slides", 2)] }
        "slides" 40 [("slides", 10)]).1 = true
    ∧ (consume_budget { date := "2026-10-12", totalUsed := 3, perType := [("slides", 2)] }
        "slides").totalUsed = 3 + 1 :=
  ⟨(C1_budget_gate_amended.1 _ "slides" 40 _).mpr
      ⟨Or.inr (by decide),
       fun limit h => Or.inr (by rw [← Option.some.inj h]; decide)⟩,
   (C1_budget_gate_amended.2.1
      { date := "2026-10-12", totalUsed := 3, perType := [("slides", 2)] } "slides").1⟩

/-- C2: starting from a zero failure streak, exactly
breaker_consecutive_failures consecutive recorded failures (positive
threshold, no intervening success) leave the breaker for that type open
until the time of the last failure plus breaker_open_minutes, so its
status is open at any earlier instant; and one recorded success resets
the streak to zero, clears open_until, and makes the status closed at
every instant. -/
theorem C2_breaker_thm :
    (∀ br t th m ts τ, 0 < th →
       (breakerGet br t).consecutiveFailures = 0 →
       ((ts.length : Int) + 1) = th →
       (breakerGet (recordFailures br t th m (ts ++ [τ])) t).openUntil = some (τ + 60 * m)
       ∧ ∀ now, now < τ + 60 * m →
           (breaker_status (recordFailures br t th m (ts ++ [τ])) t now).1 = true)
    ∧ (∀ br t now now2,
        (breakerGet (breaker_record_success br t now) t).consecutiveFailures = 0
        ∧ (breakerGet (breaker_record_success br t now) t).openUntil = none
        ∧ (breaker_status (breaker_record_success br t now) t now2).1 = false) := by
  constructor
  · intro br t th m ts τ hth h0 hlen
    have hopen := recordFailures_opens t th m ts τ br hth h0 hlen
    refine ⟨hopen, fun now hnow => breaker_status_open _ _ _ _ hopen hnow⟩
  · intro br t now now2
    have he := record_success_entry br t now
    refine ⟨he.1, he.2, ?_⟩
    unfold breaker_status
    rw [he.2]

/-- C2 (witness): three failures at threshold 3 open the slides breaker
until the third failure time plus 90 minutes, and it reads open at an
earlier instant. -/
theorem C2_breaker_witness :
    (breakerGet (recordFailures [] "slides" 3 90 ([10, 20] ++ [30])) "slides").openUntil
        = some (30 + 60 * 90)
    ∧ (breaker_status (recordFailures [] "slides" 3 90 ([10, 20] ++ [30])) "slides" 100).1
        = true :=
  ⟨(C2_breaker_thm.1 [] "slides" 3 90 [10, 20] 30 (by decide) (by decide) (by decide)).1,
   (C2_breaker_thm.1 [] "slides" 3 90 [10, 20] 30 (by decide) (by decide) (by decide)).2
     100 (by decide)⟩

/-- C3: a same-state transition succeeds and only refreshes updated_at;
a pair in the allowed-transition table succeeds, updates the status and
refreshes updated_at; any other pair fails with an illegal-transition
error, producing no modified manifest. -/
theorem C3_transition_thm (m : RunManifest) (target : String) (now : Nat) :
    (m.status = target → transition m target now = Except.ok { m with updatedAt := now })
    ∧ (m.status ≠ target → can_transition m.status target = true →
        transition m target now = Except.ok { m with status := target, updatedAt := now })
    ∧ (m.status ≠ target → can_transition m.status target = false →
        transition m target now =
          Except.error ("Illegal state transition: " ++ m.status ++ " -> " ++ target)) := by
  refine ⟨?_, ?_, ?_⟩
  · intro h
    simp [transition, h, touchManifest]
  · intro h hc
    simp [transition, h, hc, touchManifest]
  · intro h hc
    simp [transition, h, hc]

/-- C3 (witness): the three transition behaviours evaluated on concrete
manifests. -/
theorem C3_transition_witness :
    transition { runId := "r1", status := "started", updatedAt := 0 } "started" 5
        = Except.ok { runId := "r1", status := "started", updatedAt := 5 }
    ∧ transition { runId := "r1", status := "started", updatedAt := 0 } "fetched" 5
        = Except.ok { runId := "r1", status := "fetched", updatedAt := 5 }
    ∧ transition { runId := "r1", status := "completed", updatedAt := 0 } "generating" 5
        = Except.error "Illegal state transition: completed -> generating" :=
  ⟨(C3_transition_thm { runId := "r1", status := "started", updatedAt := 0 } "started" 5).1
      rfl,
   (C3_transition_thm { runId := "r1", status := "started", updatedAt := 0 } "fetched" 5).2.1
      (by decide) (by decide),
   (C3_transition_thm { runId := "r1", status := "completed", updatedAt := 0 } "generating" 5).2.2
      (by decide) (by decide)⟩

/-- C4: the plan loop stops outright, never attempting later plan
entries, as soon as a positive max_success is reached; and the final
summary status is ok exactly when the success count reaches
max(1, max_success), degraded exactly when there is at least one success
but fewer than that, and failed exactly when there are none. -/
theorem C4_plan_stop_thm :
    (∀ args env i st t rest, 0 < args.maxSuccess →
        args.maxSuccess ≤ (st.successes.length : Int) →
        runPlan args env i st (t :: rest) = st)
    ∧ (∀ (succ : List AttemptRow) (ms : Int),
        (finalStatus succ ms = "ok" ↔ ((max 1 ms) : Int) ≤ (succ.length : Int))
        ∧ (finalStatus succ ms = "degraded" ↔
            0 < succ.length ∧ (succ.length : Int) < max 1 ms)
        ∧ (finalStatus succ ms = "failed" ↔ succ.length = 0)) := by
  constructor
  · intro args env i st t rest h1 h2
    have hcond : (args.maxSuccess > 0 && ((st.successes.length : Int) ≥ args.maxSuccess)) = true := by
      simp only [Bool.and_eq_true, decide_eq_true_eq]
      exact ⟨h1, h2⟩
    simp only [runPlan, hcond, if_true]
  · intro succ ms
    have hle : ms ≤ max 1 ms := le_max_right 1 ms
    have hle1 : (1 : Int) ≤ max 1 ms := le_max_left 1 ms
    unfold finalStatus
    rcases max_choice 1 ms with hm | hm <;> rw [hm] at hle hle1 ⊢ <;>
      split_ifs with h1 h2 <;> simp_all [List.isEmpty_iff_length_eq_zero] <;>
        first
          | omega
          | exact List.length_pos.mpr h2
          | exact ⟨fun _ => List.ne_nil_of_length_pos (by omega),
                   List.ne_nil_of_length_pos (by omega)⟩
          | exact List.ne_nil_of_length_pos (by omega)

/-- C4 (witness): with max_success 1 and one success already recorded,
the loop on a remaining plan returns the state untouched, and the final
status of one success under max_success 1 is ok. -/
theorem C4_plan_stop_witness :
    runPlan
        { maxSuccess := 1, dailyBudgetTotal := 40, perTypeBudget := [],
          breakerThreshold := 3, breakerOpenMinutes := 90 }
        (fun _ => { time := 0, create := CreateResult.fail "x", poll := PollFinal.failed })
        0
        { daily := { date := "2026-10-12", totalUsed := 1, perType := [("infographic", 1)] },
          breaker := [],
          attempts := [{ artifactType := "infographic", outcome := "completed",
                         artifactId := some "a" }],
          successes := [{ artifactType := "infographic", outcome := "completed",
                          artifactId := some "a" }],
          skipped := [] }
        ["slides"]
      = { daily := { date := "2026-10-12", totalUsed := 1, perType := [("infographic", 1)] },
          breaker := [],
          attempts := [{ artifactType := "infographic", outcome := "completed",
                         artifactId := some "a" }],
          successes := [{ artifactType := "infographic", outcome := "completed",
                          artifactId := some "a" }],
          skipped := [] }
    ∧ finalStatus [{ artifactType := "infographic", outcome := "completed",
                     artifactId := some "a" }] 1 = "ok" :=
  ⟨C4_plan_stop_thm.1
      { maxSuccess := 1, dailyBudgetTotal := 40, perTypeBudget := [],
        breakerThreshold := 3, breakerOpenMinutes := 90 }
      (fun _ => { time := 0, create := CreateResult.fail "x", poll := PollFinal.failed })
      0
      { daily := { date := "2026-10-12", totalUsed := 1, perType := [("infographic", 1)] },
        breaker := [],
        attempts := [{ artifactType := "infographic", outcome := "completed",
                       artifactId := some "a" }],
        successes := [{ artifactType := "infographic", outcome := "completed",
                        artifactId := some "a" }],
        skipped := [] }
      "slides" [] (by decide) (by decide),
   (C4_plan_stop_thm.2
      [{ artifactType := "infographic", outcome := "completed", artifactId := some "a" }]
      1).1.mpr (by decide)⟩

/-- C5 helper: a failing preflight always reports both a reason and a
detail string. -/
theorem preflight_fail_report (env : PreflightEnv) (ids : List String) :
    (preflight env ids).1 = false →
      ((preflight env ids).2.reason.isSome ∧ (preflight env ids).2.detail.isSome) := by
  unfold preflight
  rcases hsl : env.sourceList with e | l <;>
    split_ifs <;>
      first
        | (intro _; exact ⟨rfl, rfl⟩)
        | (intro hf; dsimp only at hf ⊢; split_ifs at hf ⊢ <;> simp_all)

/-- C5 (counterexample): the claim that a failed-preflight run leaves the
daily counters unchanged fails on a date rollover: with a stored date of
the previous day and total_used 5, a run whose preflight fails still
resets total_used to 0 before preflight. -/
theorem C5_preflight_counterexample :
    ((runMainPreflight "2026-10-12"
        { daily := { date := "2026-10-11", totalUsed := 5, perType := [("slides", 2)] },
          breaker := [], lastRunStatus := none }
        { versionOk := false, versionDetail := "nlm missing", loginOk := true,
          loginDetail := "", sourceList := Except.ok [] }
        []).map (fun r => r.state.daily.totalUsed)) = some 0
    ∧ ¬ ((runMainPreflight "2026-10-12"
        { daily := { date := "2026-10-11", totalUsed := 5, perType := [("slides", 2)] },
          breaker := [], lastRunStatus := none }
        { versionOk := false, versionDetail := "nlm missing", loginOk := true,
          loginDetail := "", sourceList := Except.ok [] }
        []).map (fun r => r.state.daily.totalUsed)) = some 5 := by decide

/-- C5 (amended): every run whose preflight fails reports status
failed_preflight with a reason and a detail string, records
last_run.status = failed_preflight in the persisted guard state, and
leaves the daily budget counters exactly as the startup daily-rollover
normalization left them — in particular unchanged whenever the stored
date is the current date — consuming no budget and attempting no
artifact creation. -/
theorem C5_preflight_amended (today : String) (st0 : GuardState) (env : PreflightEnv)
    (ids : List String) (r : PreflightFailureResult)
    (h : runMainPreflight today st0 env ids = some r) :
    r.summaryStatus = "failed_preflight"
    ∧ r.summaryReason.isSome ∧ r.summaryDetail.isSome
    ∧ r.state.lastRunStatus = some "failed_preflight"
    ∧ r.state.daily = (maybe_reset_daily today st0).daily
    ∧ (st0.daily.date = today → r.state.daily = st0.daily) := by
  unfold runMainPreflight at h
  rcases hp : preflight env ids with ⟨ok, report⟩
  rw [hp] at h
  cases ok
  · simp only at h
    injection h with h2
    subst h2
    have hrep := preflight_fail_report env ids (by rw [hp])
    rw [hp] at hrep
    refine ⟨rfl, hrep.1, hrep.2, rfl, rfl, ?_⟩
    intro hdate
    simp [maybe_reset_daily, hdate]
  · exact Option.noConfusion h

/-- C5 (witness): the amended statement evaluated on a same-day state
with a failing version probe. -/
theorem C5_preflight_witness :
    ({ summaryStatus := "failed_preflight", summaryReason := some "nlm_not_available",
       summaryDetail := some "nlm missing",
       state := { daily := { date := "2026-10-12", totalUsed := 5, perType := [("slides", 2)] },
                  breaker := [], lastRunStatus := some "failed_preflight" } }
        : PreflightFailureResult).summaryStatus = "failed_preflight"
    ∧ ({ summaryStatus := "failed_preflight", summaryReason := some "nlm_not_available",
         summaryDetail := some "nlm missing",
         state := { daily := { date := "2026-10-12", totalUsed := 5, perType := [("slides", 2)] },
                    breaker := [], lastRunStatus := some "failed_preflight" } }
        : PreflightFailureResult).summaryReason.isSome
    ∧ ({ summaryStatus := "failed_preflight", summaryReason := some "nlm_not_available",
         summaryDetail := some "nlm missing",
         state := { daily := { date := "2026-10-12", totalUsed := 5, perType := [("slides", 2)] },
                    breaker := [], lastRunStatus := some "failed_preflight" } }
        : PreflightFailureResult).summaryDetail.isSome
    ∧ ({ summaryStatus := "failed_preflight", summaryReason := some "nlm_not_available",
         summaryDetail := some "nlm missing",
         state := { daily := { date := "2026-10-12", totalUsed := 5, perType := [("slides", 2)] },
                    breaker := [], lastRunStatus := some "failed_preflight" } }
        : PreflightFailureResult).state.lastRunStatus = some "failed_preflight"
    ∧ ({ summaryStatus := "failed_preflight", summaryReason := some "nlm_not_available",
         summaryDetail := some "nlm missing",
         state := { daily := { date := "2026-10-12", totalUsed := 5, perType := [("slides", 2)] },
                    breaker := [], lastRunStatus := some "failed_preflight" } }
        : PreflightFailureResult).state.daily
      = (maybe_reset_daily "2026-10-12"
          { daily := { date := "2026-10-12", totalUsed := 5, perType := [("slides", 2)] },
            breaker := [], lastRunStatus := none }).daily
    ∧ (({ daily := { date := "2026-10-12", totalUsed := 5, perType := [("slides", 2)] },
          breaker := [], lastRunStatus := none } : GuardState).daily.date = "2026-10-12" →
        ({ summaryStatus := "failed_preflight", summaryReason := some "nlm_not_available",
           summaryDetail := some "nlm missing",
           state := { daily := { date := "2026-10-12", totalUsed := 5, perType := [("slides", 2)] },
                      breaker := [], lastRunStatus := some "failed_preflight" } }
          : PreflightFailureResult).state.daily
          = ({ daily := { date := "2026-10-12", totalUsed := 5, perType := [("slides", 2)] },
               breaker := [], lastRunStatus := none } : GuardState).daily) :=
  C5_preflight_amended "2026-10-12"
    { daily := { date := "2026-10-12", totalUsed := 5, perType := [("slides", 2)] },
      breaker := [], lastRunStatus := none }
    { versionOk := false, versionDetail := "nlm missing", loginOk := true,
      loginDetail := "", sourceList := Except.ok [] }
    [] _ (by decide)

/-- C7: an attempt that passes both gates, whose create command succeeds
but from whose output no artifact id can be extracted, records outcome
create_failed_no_artifact, increments that type's breaker failure streak
by exactly one, and never enters the poll loop. -/
theorem C7_no_artifact_thm (args : OrchArgs) (env : StepEnv) (st : RunState)
    (t : String) (out : String)
    (hb : (budget_allowed st.daily t args.dailyBudgetTotal args.perTypeBudget).1 = true)
    (hbr : (breaker_status st.breaker t env.time).1 = false)
    (hc : env.create = CreateResult.ok out)
    (hx : extract_artifact_id out = none) :
    (stepAttempt args env st t).state.attempts
        = st.attempts ++ [{ artifactType := t, outcome := "create_failed_no_artifact",
                            artifactId := none }]
    ∧ (breakerGet (stepAttempt args env st t).state.breaker t).consecutiveFailures
        = (breakerGet st.breaker t).consecutiveFailures + 1
    ∧ (stepAttempt args env st t).enteredPoll = false := by
  unfold stepAttempt
  rcases hB : budget_allowed st.daily t args.dailyBudgetTotal args.perTypeBudget with ⟨b, r⟩
  rw [hB] at hb
  simp only at hb
  subst hb
  rw [hc]
  dsimp only
  simp only [hbr, Bool.false_eq_true, if_false]
  simp only [hx]
  exact ⟨trivial,
    record_failure_cf st.breaker t args.breakerThreshold args.breakerOpenMinutes env.time,
    trivial⟩

/-- C7 (witness): a fresh state, an allowed attempt, and a create output
containing no artifact id. -/
theorem C7_no_artifact_witness :
    (stepAttempt
        { maxSuccess := 1, dailyBudgetTotal := 40, perTypeBudget := [],
          breakerThreshold := 3, breakerOpenMinutes := 90 }
        { time := 0, create := CreateResult.ok "no id here", poll := PollFinal.completed }
        { daily := { date := "2026-10-12", totalUsed := 0, perType := [] },
          breaker := [], attempts := [], successes := [], skipped := [] }
        "slides").state.attempts
      = [] ++ [{ artifactType := "slides", outcome := "create_failed_no_artifact",
                 artifactId := none }]
    ∧ (breakerGet (stepAttempt
        { maxSuccess := 1, dailyBudgetTotal := 40, perTypeBudget := [],
          breakerThreshold := 3, breakerOpenMinutes := 90 }
        { time := 0, create := CreateResult.ok "no id here", poll := PollFinal.completed }
        { daily := { date := "2026-10-12", totalUsed := 0, perType := [] },
          breaker := [], attempts := [], successes := [], skipped := [] }
        "slides").state.breaker "slides").consecutiveFailures
      = (breakerGet [] "slides").consecutiveFailures + 1
    ∧ (stepAttempt
        { maxSuccess := 1, dailyBudgetTotal := 40, perTypeBudget := [],
          breakerThreshold := 3, breakerOpenMinutes := 90 }
        { time := 0, create := CreateResult.ok "no id here", poll := PollFinal.completed }
        { daily := { date := "2026-10-12", totalUsed := 0, perType := [] },
          breaker := [], attempts := [], successes := [], skipped := [] }
        "slides").enteredPoll = false :=
  C7_no_artifact_thm
    { maxSuccess := 1, dailyBudgetTotal := 40, perTypeBudget := [],
      breakerThreshold := 3, breakerOpenMinutes := 90 }
    { time := 0, create := CreateResult.ok "no id here", poll := PollFinal.completed }
    { daily := { date := "2026-10-12", totalUsed := 0, perType := [] },
      breaker := [], attempts := [], successes := [], skipped := [] }
    "slides" "no id here" (by decide) (by decide) rfl (by decide)

/-! Poll-loop observation classification and lemmas (C9). -/

/-- An observation whose normalized row status terminates the poll loop. -/
def isTerminalObs : PollObs → Bool
  | .row raw => SUCCESS_STATES.contains (normalize_status raw)
      || FAIL_STATES.contains (normalize_status raw)
  | _ => false

/-- An observation whose normalized row status is in SUCCESS_STATES. -/
def isSuccessObs : PollObs → Bool
  | .row raw => SUCCESS_STATES.contains (normalize_status raw)
  | _ => false

/-- An observation whose normalized row status is in FAIL_STATES. -/
def isFailRowObs : PollObs → Bool
  | .row raw => FAIL_STATES.contains (normalize_status raw)
  | _ => false

theorem fail_not_success (s : String) (h : FAIL_STATES.contains s = true) :
    SUCCESS_STATES.contains s = false := by
  have hmem : s ∈ FAIL_STATES := List.mem_of_elem_eq_true h
  simp only [FAIL_STATES, List.mem_cons, List.mem_singleton] at hmem
  rcases hmem with rfl | hmem
  · decide
  · simp only [List.not_mem_nil, or_false] at hmem
    subst hmem
    decide

theorem pollGo_success (obs : Nat → PollObs) :
    ∀ (k fuel i : Nat) (last : String), k < fuel →
      (∀ j, j < k → isTerminalObs (obs (i + j)) = false) →
      isSuccessObs (obs (i + k)) = true →
      pollGo obs i fuel last = ("completed", none) := by
  intro k
  induction k with
  | zero =>
    intro fuel i last hf hj hs
    rcases fuel with _ | f
    · omega
    · simp only [pollGo]
      rcases ho : obs i with _ | _ | raw
      · rw [Nat.add_zero, ho] at hs
        exact absurd hs (by simp [isSuccessObs])
      · rw [Nat.add_zero, ho] at hs
        exact absurd hs (by simp [isSuccessObs])
      · rw [Nat.add_zero, ho] at hs
        simp only [isSuccessObs] at hs
        dsimp only
        rw [hs]
        rfl
  | succ k ih =>
    intro fuel i last hf hj hs
    rcases fuel with _ | f
    · omega
    · have h0 : isTerminalObs (obs (i + 0)) = false := hj 0 (by omega)
      rw [Nat.add_zero] at h0
      have hjs : ∀ j, j < k → isTerminalObs (obs (i + 1 + j)) = false := by
        intro j hjk
        have hh := hj (j + 1) (by omega)
        rwa [show i + (j + 1) = i + 1 + j by omega] at hh
      have hss : isSuccessObs (obs (i + 1 + k)) = true := by
        rwa [show i + (k + 1) = i + 1 + k by omega] at hs
      simp only [pollGo]
      rcases ho : obs i with _ | _ | raw
      · exact ih f (i + 1) last (by omega) hjs hss
      · exact ih f (i + 1) last (by omega) hjs hss
      · rw [ho] at h0
        simp only [isTerminalObs, Bool.or_eq_false_iff] at h0
        dsimp only
        rw [h0.1, h0.2]
        simp only [Bool.false_eq_true, if_false]
        exact ih f (i + 1) (normalize_status raw) (by omega) hjs hss

theorem pollGo_fail (obs : Nat → PollObs) :
    ∀ (k fuel i : Nat) (last : String), k < fuel →
      (∀ j, j < k → isTerminalObs (obs (i + j)) = false) →
      isFailRowObs (obs (i + k)) = true →
      pollGo obs i fuel last = ("failed", none) := by
  intro k
  induction k with
  | zero =>
    intro fuel i last hf hj hs
    rcases fuel with _ | f
    · omega
    · simp only [pollGo]
      rcases ho : obs i with _ | _ | raw
      · rw [Nat.add_zero, ho] at hs
        exact absurd hs (by simp [isFailRowObs])
      · rw [Nat.add_zero, ho] at hs
        exact absurd hs (by simp [isFailRowObs])
      · rw [Nat.add_zero, ho] at hs
        simp only [isFailRowObs] at hs
        have hns := fail_not_success _ hs
        dsimp only
        rw [hns, hs]
        rfl
  | succ k ih =>
    intro fuel i last hf hj hs
    rcases fuel with _ | f
    · omega
    · have h0 : isTerminalObs (obs (i + 0)) = false := hj 0 (by omega)
      rw [Nat.add_zero] at h0
      have hjs : ∀ j, j < k → isTerminalObs (obs (i + 1 + j)) = false := by
        intro j hjk
        have hh := hj (j + 1) (by omega)
        rwa [show i + (j + 1) = i + 1 + j by omega] at hh
      have hss : isFailRowObs (obs (i + 1 + k)) = true := by
        rwa [show i + (k + 1) = i + 1 + k by omega] at hs
      simp only [pollGo]
      rcases ho : obs i with _ | _ | raw
      · exact ih f (i + 1) last (by omega) hjs hss
      · exact ih f (i + 1) last (by omega) hjs hss
      · rw [ho] at h0
        simp only [isTerminalObs, Bool.or_eq_false_iff] at h0
        dsimp only
        rw [h0.1, h0.2]
        simp only [Bool.false_eq_true, if_false]
        exact ih f (i + 1) (normalize_status raw) (by omega) hjs hss

theorem pollGo_timeout (obs : Nat → PollObs) :
    ∀ (fuel i : Nat) (last : String),
      (∀ j, j < fuel → isTerminalObs (obs (i + j)) = false) →
      (pollGo obs i fuel last).1 = "timeout" := by
  intro fuel
  induction fuel with
  | zero => intro i last _; rfl
  | succ f ih =>
    intro i last hj
    have h0 : isTerminalObs (obs (i + 0)) = false := hj 0 (by omega)
    rw [Nat.add_zero] at h0
    have hjs : ∀ j, j < f → isTerminalObs (obs (i + 1 + j)) = false := by
      intro j hjk
      have hh := hj (j + 1) (by omega)
      rwa [show i + (j + 1) = i + 1 + j by omega] at hh
    simp only [pollGo]
    rcases ho : obs i with _ | _ | raw
    · exact ih (i + 1) last hjs
    · exact ih (i + 1) last hjs
    · rw [ho] at h0
      simp only [isTerminalObs, Bool.or_eq_false_iff] at h0
      dsimp only
      rw [h0.1, h0.2]
      simp only [Bool.false_eq_true, if_false]
      exact ih (i + 1) (normalize_status raw) hjs

theorem normalize_str_passthrough (s : String)
    (h : pyLower (pyStrip s) ∉
      (["complete", "success", "succeeded", "in progress", "running"] : List String)) :
    normalize_status (RawStatus.str s) = pyLower (pyStrip s) := by
  unfold normalize_status
  dsimp only
  have hf : List.find? (fun p => p.1 = pyLower (pyStrip s))
      [("complete", "completed"), ("success", "completed"), ("succeeded", "completed"),
       ("in progress", "in_progress"), ("running", "in_progress")] = none := by
    rw [List.find?_eq_none]
    intro x hx
    simp only [List.mem_cons, List.mem_singleton] at hx
    rcases hx with rfl | rfl | rfl | rfl | rfl | hx
    · simp only [decide_eq_true_eq]
      exact fun heq => h (heq ▸ (by decide))
    · simp only [decide_eq_true_eq]
      exact fun heq => h (heq ▸ (by decide))
    · simp only [decide_eq_true_eq]
      exact fun heq => h (heq ▸ (by decide))
    · simp only [decide_eq_true_eq]
      exact fun heq => h (heq ▸ (by decide))
    · simp only [decide_eq_true_eq]
      exact fun heq => h (heq ▸ (by decide))
    · exact absurd hx (List.not_mem_nil x)
  rw [hf]
  rfl

theorem normalize_int_passthrough (n : Int) (h : STATUS_MAP n = none) :
    normalize_status (RawStatus.int n) = toString n := by
  unfold normalize_status
  dsimp only
  rw [h]
  rfl

/-- C9 (counterexample): normalization does not always land in the
canonical vocabulary — the unknown numeric code 2 passes through as the
string 2 — and polling also stops on a normalized status (done) that is
neither completed nor failed. -/
theorem C9_status_poll_counterexample :
    normalize_status (RawStatus.int 2) = "2"
    ∧ "2" ∉ (["completed", "failed", "in_progress", "unknown"] : List String)
    ∧ poll_artifact_status (fun _ => PollObs.row (RawStatus.str "done")) 1
        = ("completed", none)
    ∧ normalize_status (RawStatus.str "done") ∉ (["completed", "failed"] : List String) := by
  decide

/-- C9 (amended): known numeric codes 1, 3, 4 map to in_progress,
completed and failed; an absent status maps to unknown; every string
whose stripped lower-cased text is one of the synonyms complete,
success, succeeded, in progress, running maps to its canonical form;
every other value passes through exactly (unknown integers as their
decimal string, every other string as its stripped lower-cased text);
and polling stops exactly when the normalized row status lies in
SUCCESS_STATES (outcome completed) or FAIL_STATES (outcome failed),
timing out when no observation in range is terminal. -/
theorem C9_status_poll_amended :
    normalize_status (RawStatus.int 1) = "in_progress"
    ∧ normalize_status (RawStatus.int 3) = "completed"
    ∧ normalize_status (RawStatus.int 4) = "failed"
    ∧ normalize_status RawStatus.missing = "unknown"
    ∧ (∀ s, pyLower (pyStrip s) = "complete" →
        normalize_status (RawStatus.str s) = "completed")
    ∧ (∀ s, pyLower (pyStrip s) = "success" →
        normalize_status (RawStatus.str s) = "completed")
    ∧ (∀ s, pyLower (pyStrip s) = "succeeded" →
        normalize_status (RawStatus.str s) = "completed")
    ∧ (∀ s, pyLower (pyStrip s) = "in progress" →
        normalize_status (RawStatus.str s) = "in_progress")
    ∧ (∀ s, pyLower (pyStrip s) = "running" →
        normalize_status (RawStatus.str s) = "in_progress")
    ∧ (∀ n, STATUS_MAP n = none → normalize_status (RawStatus.int n) = toString n)
    ∧ (∀ s, pyLower (pyStrip s) ∉
          (["complete", "success", "succeeded", "in progress", "running"] : List String) →
        normalize_status (RawStatus.str s) = pyLower (pyStrip s))
    ∧ (∀ obs maxPolls k, k < maxPolls →
        (∀ j, j < k → isTerminalObs (obs j) = false) →
        isSuccessObs (obs k) = true →
        poll_artifact_status obs maxPolls = ("completed", none))
    ∧ (∀ obs maxPolls k, k < maxPolls →
        (∀ j, j < k → isTerminalObs (obs j) = false) →
        isFailRowObs (obs k) = true →
        poll_artifact_status obs maxPolls = ("failed", none))
    ∧ (∀ obs maxPolls,
        (∀ j, j < maxPolls → isTerminalObs (obs j) = false) →
        (poll_artifact_status obs maxPolls).1 = "timeout") := by
  refine ⟨by decide, by decide, by decide, by decide, ?_, ?_, ?_, ?_, ?_,
    normalize_int_passthrough, normalize_str_passthrough, ?_, ?_, ?_⟩
  · intro s h
    unfold normalize_status
    dsimp only
    rw [h]
    rfl
  · intro s h
    unfold normalize_status
    dsimp only
    rw [h]
    rfl
  · intro s h
    unfold normalize_status
    dsimp only
    rw [h]
    rfl
  · intro s h
    unfold normalize_status
    dsimp only
    rw [h]
    rfl
  · intro s h
    unfold normalize_status
    dsimp only
    rw [h]
    rfl
  · intro obs maxPolls k hk hj hs
    exact pollGo_success obs k maxPolls 0 "unknown" hk
      (fun j hjk => by rw [Nat.zero_add]; exact hj j hjk)
      (by rw [Nat.zero_add]; exact hs)
  · intro obs maxPolls k hk hj hs
    exact pollGo_fail obs k maxPolls 0 "unknown" hk
      (fun j hjk => by rw [Nat.zero_add]; exact hj j hjk)
      (by rw [Nat.zero_add]; exact hs)
  · intro obs maxPolls hj
    exact pollGo_timeout obs maxPolls 0 "unknown"
      (fun j hjk => by rw [Nat.zero_add]; exact hj j hjk)

/-- C9 (witness): a synonym string, a passthrough string, the integer
passthrough, and the success-stop behaviour of the poll loop, all
evaluated on concrete inputs. -/
theorem C9_status_poll_witness :
    normalize_status (RawStatus.str " Complete ") = "completed"
    ∧ normalize_status (RawStatus.str "Pending-X ") = pyLower (pyStrip "Pending-X ")
    ∧ normalize_status (RawStatus.int 7) = toString (7 : Int)
    ∧ poll_artifact_status
        (fun n => if n = 0 then PollObs.noRow else PollObs.row (RawStatus.str "succeeded")) 5
        = ("completed", none) :=
  ⟨C9_status_poll_amended.2.2.2.2.1 " Complete " (by decide),
   C9_status_poll_amended.2.2.2.2.2.2.2.2.2.2.1 "Pending-X " (by decide),
   C9_status_poll_amended.2.2.2.2.2.2.2.2.2.1 7 (by decide),
   C9_status_poll_amended.2.2.2.2.2.2.2.2.2.2.2.1
     (fun n => if n = 0 then PollObs.noRow else PollObs.row (RawStatus.str "succeeded"))
     5 1 (by decide) (by decide) (by decide)⟩

/-! Response-parser lemmas (C6). -/

theorem parse_json_payload_loads (s : String) (v : Json)
    (h : loadsChars (pyStripChars s.data) = some v) :
    parse_json_payload s = Except.ok v := by
  unfold parse_json_payload
  have hne : (pyStripChars s.data).isEmpty = false := by
    rcases he : pyStripChars s.data with _ | ⟨c, cs⟩
    · rw [he] at h
      exact Option.noConfusion h
    · rfl
  simp only [hne, Bool.false_eq_true, if_false, h]

/-- C6 (counterexample): on input with two equal-length embedded objects
the parser keeps the decode whose absolute end index is greatest, so it
returns the later object, not the value with the greatest decoded span
starting at the earliest brace. -/
theorem C6_parser_counterexample :
    parse_json_payload "\x7b\"a\":1\x7d extra \x7b\"b\":2\x7d"
        = Except.ok (Json.obj [("b", Json.num 2)])
    ∧ Json.obj [("b", Json.num 2)] ≠ Json.obj [("a", Json.num 1)] := by decide

/-- C6 (amended): the parser tries, in order, (a) a full parse of the
trimmed text, (b) a partial decode from each brace or bracket position
keeping the decode whose absolute end index is greatest (ties going to
the earliest start), and (c) the last line starting with a brace or
bracket; the noisy-line input yields the embedded object, the two-object
input yields the later object with the furthest-reaching end, and input
with no JSON-looking substring fails with the malformed-output error. -/
theorem C6_parser_amended :
    (∀ s v, loadsChars (pyStripChars s.data) = some v → parse_json_payload s = Except.ok v)
    ∧ parse_json_payload "noise line\n\x7b\"a\":1\x7d\nmore noise"
        = Except.ok (Json.obj [("a", Json.num 1)])
    ∧ parse_json_payload "\x7b\"a\":1\x7d extra \x7b\"b\":2\x7d"
        = Except.ok (Json.obj [("b", Json.num 2)])
    ∧ parse_json_payload "plain text only" = Except.error "No JSON object found in output" :=
  ⟨parse_json_payload_loads, by decide, by decide, by decide⟩

/-- C6 (witness): the full-parse tier evaluated on a clean JSON input. -/
theorem C6_parser_witness :
    parse_json_payload " \x7b\"ok\": true\x7d " = Except.ok (Json.obj [("ok", Json.bool true)]) :=
  C6_parser_amended.1 " \x7b\"ok\": true\x7d " (Json.obj [("ok", Json.bool true)]) (by decide)

/-! Source-map overlay lemmas (C8). -/

theorem dget_dictUpdate (k : String) :
    ∀ (fresh base : List (String × String)), (fresh.map Prod.fst).Nodup →
      dget (dictUpdate base fresh) k = (dget fresh k).or (dget base k) := by
  intro fresh
  induction fresh with
  | nil => intro base _; simp [dictUpdate, dget]
  | cons p ps ih =>
    intro base hnd
    obtain ⟨k0, v0⟩ := p
    have hnd' : (k0 :: ps.map Prod.fst).Nodup := by simpa using hnd
    have hnd2 := List.nodup_cons.mp hnd'
    have step : dictUpdate base ((k0, v0) :: ps) = dictUpdate (dput base k0 v0) ps := rfl
    rw [step, ih (dput base k0 v0) hnd2.2]
    by_cases hk : k = k0
    · subst hk
      have hfind : ps.find? (fun p => p.1 = k) = none := by
        rw [List.find?_eq_none]
        intro x hx hpx
        simp only [decide_eq_true_eq] at hpx
        exact hnd2.1 (hpx ▸ List.mem_map_of_mem Prod.fst hx)
      have hps : dget ps k = none := by
        unfold dget
        rw [hfind]
        rfl
      rw [hps, dget_dput_self]
      simp [dget, List.find?]
    · rw [dget_dput_ne base k0 v0 k hk]
      have hhead : dget ((k0, v0) :: ps) k = dget ps k := by
        unfold dget
        have hne : ¬ (k0 = k) := fun hh => hk hh.symm
        simp [List.find?, hne]
      rw [hhead]

theorem liveSourceMap_keys (resolver : String → String) (k : String) :
    ∀ (unres : List String) (acc : List (String × String)),
      (dget (unres.foldl
          (fun acc cid =>
            let sid := pyStrip (resolver cid)
            if sid.isEmpty then acc else dput acc cid sid) acc) k).isSome = true →
        (dget acc k).isSome = true ∨ k ∈ unres := by
  intro unres
  induction unres with
  | nil => intro acc h; exact Or.inl h
  | cons cid cids ih =>
    intro acc h
    simp only [List.foldl] at h
    rcases ih _ h with h2 | h2
    · by_cases hs : (pyStrip (resolver cid)).isEmpty
      · rw [if_pos hs] at h2
        exact Or.inl h2
      · rw [if_neg hs] at h2
        by_cases hk : k = cid
        · exact Or.inr (by simp [hk])
        · rw [dget_dput_ne acc cid _ k hk] at h2
          exact Or.inl h2
    · exact Or.inr (List.mem_cons_of_mem cid h2)

/-- C8: only chapter ids whose cached entry is missing or blank are
looked up live (and every key of the live map is such a chapter id); the
effective source map is the cached map overlaid with the live map, live
entries winning on key collision and cached entries filling the gaps;
and the concrete overlay of the specification example evaluates as
claimed. -/
theorem C8_source_map_thm :
    (∀ cached chapterIds cid,
        cid ∈ unresolvedChapterIds cached chapterIds ↔
          (cid ∈ chapterIds ∧ (pyStrip ((dget cached cid).getD "")).isEmpty = true))
    ∧ (∀ resolver cached chapterIds k,
        (dget (liveSourceMap resolver (unresolvedChapterIds cached chapterIds)) k).isSome = true →
          k ∈ unresolvedChapterIds cached chapterIds)
    ∧ (∀ cached live k, (live.map Prod.fst).Nodup →
        dget (effectiveSourceMap cached live) k = (dget live k).or (dget cached k))
    ∧ effectiveSourceMap [("1", "sA"), ("2", "sB")] [("2", "sC"), ("3", "sD")]
        = [("1", "sA"), ("2", "sC"), ("3", "sD")] := by
  refine ⟨?_, ?_, ?_, by decide⟩
  · intro cached chapterIds cid
    simp [unresolvedChapterIds, List.mem_filter]
  · intro resolver cached chapterIds k h
    rcases liveSourceMap_keys resolver k (unresolvedChapterIds cached chapterIds) [] h
        with h2 | h2
    · simp [dget] at h2
    · exact h2
  · intro cached live k hnd
    exact dget_dictUpdate k live cached hnd

/-- C8 (witness): the overlay characterization evaluated on the
specification example maps. -/
theorem C8_source_map_witness :
    dget (effectiveSourceMap [("1", "sA"), ("2", "sB")] [("2", "sC"), ("3", "sD")]) "2"
      = (dget [("2", "sC"), ("3", "sD")] "2").or (dget [("1", "sA"), ("2", "sB")] "2") :=
  C8_source_map_thm.2.2.1 [("1", "sA"), ("2", "sB")] [("2", "sC"), ("3", "sD")] "2" (by decide)

theorem normalizeSection_props (kvs : List (String × Json)) (key : String) :
    (∃ b, objGet (normalizeSection kvs key) key = some (Json.obj b))
    ∧ ∀ u, u ≠ key → objGet (normalizeSection kvs key) u = objGet kvs u := by
  unfold normalizeSection
  rcases h : objGet kvs key with _ | v
  · exact ⟨⟨[], objGet_objSet_self kvs key (Json.obj [])⟩,
           fun u hu => objGet_objSet_ne kvs key _ u hu⟩
  · cases v <;>
      first
        | exact ⟨⟨_, h⟩, fun u hu => rfl⟩
        | exact ⟨⟨[], objGet_objSet_self kvs key (Json.obj [])⟩,
                 fun u hu => objGet_objSet_ne kvs key _ u hu⟩

theorem normalizeDaily_props (today : String) (kvs : List (String × Json)) :
    (∃ d, objGet (normalizeDaily today kvs) "daily" = some (Json.obj d)
        ∧ (objGet d "date").isSome = true
        ∧ (objGet d "total_used").isSome = true
        ∧ (objGet d "per_type").isSome = true)
    ∧ ∀ u, u ≠ "daily" → objGet (normalizeDaily today kvs) u = objGet kvs u := by
  unfold normalizeDaily
  rcases h : objGet kvs "daily" with _ | v
  · exact ⟨⟨_, objGet_objSet_self kvs "daily" _, rfl, rfl, rfl⟩,
           fun u hu => objGet_objSet_ne kvs "daily" _ u hu⟩
  · cases v with
    | obj d =>
      refine ⟨⟨_, objGet_objSet_self kvs "daily" _, ?_, ?_, ?_⟩,
              fun u hu => objGet_objSet_ne kvs "daily" _ u hu⟩
      · rw [objGet_objSetDefault_ne _ "per_type" _ "date" (by decide),
            objGet_objSetDefault_ne _ "total_used" _ "date" (by decide)]
        exact objGet_objSetDefault_isSome _ "date" _
      · rw [objGet_objSetDefault_ne _ "per_type" _ "total_used" (by decide)]
        exact objGet_objSetDefault_isSome _ "total_used" _
      · exact objGet_objSetDefault_isSome _ "per_type" _
    | null =>
      exact ⟨⟨_, objGet_objSet_self kvs "daily" _, rfl, rfl, rfl⟩,
             fun u hu => objGet_objSet_ne kvs "daily" _ u hu⟩
    | bool b =>
      exact ⟨⟨_, objGet_objSet_self kvs "daily" _, rfl, rfl, rfl⟩,
             fun u hu => objGet_objSet_ne kvs "daily" _ u hu⟩
    | num n =>
      exact ⟨⟨_, objGet_objSet_self kvs "daily" _, rfl, rfl, rfl⟩,
             fun u hu => objGet_objSet_ne kvs "daily" _ u hu⟩
    | str s =>
      exact ⟨⟨_, objGet_objSet_self kvs "daily" _, rfl, rfl, rfl⟩,
             fun u hu => objGet_objSet_ne kvs "daily" _ u hu⟩
    | arr xs =>
      exact ⟨⟨_, objGet_objSet_self kvs "daily" _, rfl, rfl, rfl⟩,
             fun u hu => objGet_objSet_ne kvs "daily" _ u hu⟩

theorem wf_of_props (kvs : List (String × Json))
    (h1 : (objGet kvs "schema_version").isSome = true)
    (h2 : ∃ d, objGet kvs "daily" = some (Json.obj d)
        ∧ (objGet d "date").isSome = true
        ∧ (objGet d "total_used").isSome = true
        ∧ (objGet d "per_type").isSome = true)
    (h3 : ∃ b, objGet kvs "breaker" = some (Json.obj b))
    (h4 : ∃ l, objGet kvs "last_run" = some (Json.obj l)) :
    wellFormedGuardState (Json.obj kvs) = true := by
  obtain ⟨d, hd, hd1, hd2, hd3⟩ := h2
  obtain ⟨b, hb⟩ := h3
  obtain ⟨l, hl⟩ := h4
  unfold wellFormedGuardState
  dsimp only
  rw [hd, hb, hl]
  simp [h1, hd1, hd2, hd3]

theorem normalize_state_wf_aux (today : String) (kvs0 : List (String × Json)) :
    wellFormedGuardState (Json.obj
      (normalizeSection
        (normalizeSection
          (normalizeDaily today (objSetDefault kvs0 "schema_version" (Json.num 1)))
          "breaker")
        "last_run")) = true := by
  obtain ⟨hlr, hlrp⟩ := normalizeSection_props
    (normalizeSection
      (normalizeDaily today (objSetDefault kvs0 "schema_version" (Json.num 1))) "breaker")
    "last_run"
  obtain ⟨hbr, hbrp⟩ := normalizeSection_props
    (normalizeDaily today (objSetDefault kvs0 "schema_version" (Json.num 1))) "breaker"
  obtain ⟨hda, hdap⟩ := normalizeDaily_props today
    (objSetDefault kvs0 "schema_version" (Json.num 1))
  apply wf_of_props
  · rw [hlrp "schema_version" (by decide), hbrp "schema_version" (by decide),
        hdap "schema_version" (by decide)]
    exact objGet_objSetDefault_isSome _ "schema_version" _
  · obtain ⟨d, hd, hd1, hd2, hd3⟩ := hda
    refine ⟨d, ?_, hd1, hd2, hd3⟩
    rw [hlrp "daily" (by decide), hbrp "daily" (by decide)]
    exact hd
  · obtain ⟨b, hb⟩ := hbr
    refine ⟨b, ?_⟩
    rw [hlrp "breaker" (by decide)]
    exact hb
  · exact hlr

theorem normalize_state_wellFormed (today : String) (j : Json) :
    wellFormedGuardState (normalize_state today j) = true := by
  cases j <;> exact normalize_state_wf_aux today _


/-- A JSON value that is a dict. -/
def isObjJson : Json → Bool
  | Json.obj _ => true
  | _ => false

/-- An optional JSON value that is present and a dict. -/
def optIsDict : Option Json → Bool
  | some (Json.obj _) => true
  | _ => false

/-- Top-level lookup on a loaded state document. -/
def stateGet (j : Json) (k : String) : Option Json :=
  match j with
  | Json.obj kvs => objGet kvs k
  | _ => none

theorem objGet_objSetDefault_some (kvs : List (String × Json)) (key : String) (w : Json)
    (u : String) (v : Json) (h : objGet kvs u = some v) :
    objGet (objSetDefault kvs key w) u = some v := by
  unfold objSetDefault
  split_ifs with hp
  · exact h
  · unfold objGet at h ⊢
    rw [List.find?_append]
    rcases hf : kvs.find? (fun p => p.1 = u) with _ | p
    · rw [hf] at h
      exact absurd h (by simp)
    · rw [hf] at h
      rw [hf]
      exact h

theorem objGet_objSetDefault_getD (kvs : List (String × Json)) (key : String) (w : Json) :
    objGet (objSetDefault kvs key w) key = some ((objGet kvs key).getD w) := by
  unfold objSetDefault
  split_ifs with hp
  · unfold objGet
    rcases hf : kvs.find? (fun p => p.1 = key) with _ | p
    · rw [hf] at hp; simp at hp
    · simp [objGet, hf]
  · unfold objGet
    rw [List.find?_append]
    rcases hf : kvs.find? (fun p => p.1 = key) with _ | p
    · simp [objGet, hf, List.find?]
    · rw [hf] at hp; simp at hp

theorem normalizeDaily_dict (today : String) (kvs d : List (String × Json))
    (h : objGet kvs "daily" = some (Json.obj d)) :
    normalizeDaily today kvs = objSet kvs "daily" (Json.obj
      (objSetDefault (objSetDefault (objSetDefault d "date" (Json.str today))
        "total_used" (Json.num 0)) "per_type" (Json.obj []))) := by
  unfold normalizeDaily
  rw [h]

theorem normalizeDaily_nondict (today : String) (kvs : List (String × Json))
    (h : optIsDict (objGet kvs "daily") = false) :
    normalizeDaily today kvs = objSet kvs "daily" (Json.obj
      [("date", Json.str today), ("total_used", Json.num 0), ("per_type", Json.obj [])]) := by
  unfold normalizeDaily
  rcases h2 : objGet kvs "daily" with _ | v
  · rfl
  · rw [h2] at h
    cases v <;> first | rfl | simp [optIsDict] at h

theorem normalizeSection_dict (kvs : List (String × Json)) (key : String)
    (b : List (String × Json)) (h : objGet kvs key = some (Json.obj b)) :
    normalizeSection kvs key = kvs := by
  unfold normalizeSection
  rw [h]

theorem normalizeSection_nondict (kvs : List (String × Json)) (key : String)
    (h : optIsDict (objGet kvs key) = false) :
    normalizeSection kvs key = objSet kvs key (Json.obj []) := by
  unfold normalizeSection
  rcases h2 : objGet kvs key with _ | v
  · rfl
  · rw [h2] at h
    cases v <;> first | rfl | simp [optIsDict] at h

theorem normalize_state_nonobj (today : String) (v : Json)
    (h : isObjJson v = false) :
    normalize_state today v = default_state today := by
  cases v <;> first | rfl | simp [isObjJson] at h

theorem normalizeState_schema (today : String) (kvs : List (String × Json)) :
    stateGet (normalize_state today (Json.obj kvs)) "schema_version"
      = some ((objGet kvs "schema_version").getD (Json.num 1)) := by
  show objGet
      (normalizeSection
        (normalizeSection
          (normalizeDaily today (objSetDefault kvs "schema_version" (Json.num 1)))
          "breaker")
        "last_run") "schema_version"
    = some ((objGet kvs "schema_version").getD (Json.num 1))
  rw [(normalizeSection_props _ "last_run").2 "schema_version" (by decide),
      (normalizeSection_props _ "breaker").2 "schema_version" (by decide),
      (normalizeDaily_props today _).2 "schema_version" (by decide)]
  exact objGet_objSetDefault_getD kvs "schema_version" (Json.num 1)

theorem normalizeState_daily_dict (today : String) (kvs d : List (String × Json))
    (h : objGet kvs "daily" = some (Json.obj d)) :
    stateGet (normalize_state today (Json.obj kvs)) "daily"
      = some (Json.obj
          (objSetDefault (objSetDefault (objSetDefault d "date" (Json.str today))
            "total_used" (Json.num 0)) "per_type" (Json.obj []))) := by
  show objGet
      (normalizeSection
        (normalizeSection
          (normalizeDaily today (objSetDefault kvs "schema_version" (Json.num 1)))
          "breaker")
        "last_run") "daily" = _
  rw [(normalizeSection_props _ "last_run").2 "daily" (by decide),
      (normalizeSection_props _ "breaker").2 "daily" (by decide)]
  have h1 : objGet (objSetDefault kvs "schema_version" (Json.num 1)) "daily"
      = some (Json.obj d) := by
    rw [objGet_objSetDefault_ne kvs "schema_version" (Json.num 1) "daily" (by decide)]
    exact h
  rw [normalizeDaily_dict today _ d h1]
  exact objGet_objSet_self _ "daily" _

theorem normalizeState_daily_nondict (today : String) (kvs : List (String × Json))
    (h : optIsDict (objGet kvs "daily") = false) :
    stateGet (normalize_state today (Json.obj kvs)) "daily"
      = some (Json.obj
          [("date", Json.str today), ("total_used", Json.num 0), ("per_type", Json.obj [])]) := by
  show objGet
      (normalizeSection
        (normalizeSection
          (normalizeDaily today (objSetDefault kvs "schema_version" (Json.num 1)))
          "breaker")
        "last_run") "daily" = _
  rw [(normalizeSection_props _ "last_run").2 "daily" (by decide),
      (normalizeSection_props _ "breaker").2 "daily" (by decide)]
  have h1 : optIsDict (objGet (objSetDefault kvs "schema_version" (Json.num 1)) "daily")
      = false := by
    rw [objGet_objSetDefault_ne kvs "schema_version" (Json.num 1) "daily" (by decide)]
    exact h
  rw [normalizeDaily_nondict today _ h1]
  exact objGet_objSet_self _ "daily" _

theorem normalizeState_breaker_dict (today : String) (kvs b : List (String × Json))
    (h : objGet kvs "breaker" = some (Json.obj b)) :
    stateGet (normalize_state today (Json.obj kvs)) "breaker" = some (Json.obj b) := by
  show objGet
      (normalizeSection
        (normalizeSection
          (normalizeDaily today (objSetDefault kvs "schema_version" (Json.num 1)))
          "breaker")
        "last_run") "breaker" = _
  rw [(normalizeSection_props _ "last_run").2 "breaker" (by decide)]
  have h1 : objGet (normalizeDaily today (objSetDefault kvs "schema_version" (Json.num 1)))
      "breaker" = some (Json.obj b) := by
    rw [(normalizeDaily_props today _).2 "breaker" (by decide),
        objGet_objSetDefault_ne kvs "schema_version" (Json.num 1) "breaker" (by decide)]
    exact h
  rw [normalizeSection_dict _ "breaker" b h1]
  exact h1

theorem normalizeState_breaker_nondict (today : String) (kvs : List (String × Json))
    (h : optIsDict (objGet kvs "breaker") = false) :
    stateGet (normalize_state today (Json.obj kvs)) "breaker" = some (Json.obj []) := by
  show objGet
      (normalizeSection
        (normalizeSection
          (normalizeDaily today (objSetDefault kvs "schema_version" (Json.num 1)))
          "breaker")
        "last_run") "breaker" = _
  rw [(normalizeSection_props _ "last_run").2 "breaker" (by decide)]
  have h1 : optIsDict (objGet
      (normalizeDaily today (objSetDefault kvs "schema_version" (Json.num 1))) "breaker")
      = false := by
    rw [(normalizeDaily_props today _).2 "breaker" (by decide),
        objGet_objSetDefault_ne kvs "schema_version" (Json.num 1) "breaker" (by decide)]
    exact h
  rw [normalizeSection_nondict _ "breaker" h1]
  exact objGet_objSet_self _ "breaker" _

theorem normalizeState_lastrun_dict (today : String) (kvs l : List (String × Json))
    (h : objGet kvs "last_run" = some (Json.obj l)) :
    stateGet (normalize_state today (Json.obj kvs)) "last_run" = some (Json.obj l) := by
  show objGet
      (normalizeSection
        (normalizeSection
          (normalizeDaily today (objSetDefault kvs "schema_version" (Json.num 1)))
          "breaker")
        "last_run") "last_run" = _
  have h1 : objGet
      (normalizeSection
        (normalizeDaily today (objSetDefault kvs "schema_version" (Json.num 1))) "breaker")
      "last_run" = some (Json.obj l) := by
    rw [(normalizeSection_props _ "breaker").2 "last_run" (by decide),
        (normalizeDaily_props today _).2 "last_run" (by decide),
        objGet_objSetDefault_ne kvs "schema_version" (Json.num 1) "last_run" (by decide)]
    exact h
  rw [normalizeSection_dict _ "last_run" l h1]
  exact h1

theorem normalizeState_lastrun_nondict (today : String) (kvs : List (String × Json))
    (h : optIsDict (objGet kvs "last_run") = false) :
    stateGet (normalize_state today (Json.obj kvs)) "last_run" = some (Json.obj []) := by
  show objGet
      (normalizeSection
        (normalizeSection
          (normalizeDaily today (objSetDefault kvs "schema_version" (Json.num 1)))
          "breaker")
        "last_run") "last_run" = _
  have h1 : optIsDict (objGet
      (normalizeSection
        (normalizeDaily today (objSetDefault kvs "schema_version" (Json.num 1))) "breaker")
      "last_run") = false := by
    rw [(normalizeSection_props _ "breaker").2 "last_run" (by decide),
        (normalizeDaily_props today _).2 "last_run" (by decide),
        objGet_objSetDefault_ne kvs "schema_version" (Json.num 1) "last_run" (by decide)]
    exact h
  rw [normalizeSection_nondict _ "last_run" h1]
  exact objGet_objSet_self _ "last_run" _

theorem normalizeState_other_keys (today : String) (kvs : List (String × Json))
    (u : String)
    (hu : u ∉ (["schema_version", "daily", "breaker", "last_run"] : List String)) :
    stateGet (normalize_state today (Json.obj kvs)) u = objGet kvs u := by
  have h1 : u ≠ "schema_version" := by intro he; exact hu (by rw [he]; decide)
  have h2 : u ≠ "daily" := by intro he; exact hu (by rw [he]; decide)
  have h3 : u ≠ "breaker" := by intro he; exact hu (by rw [he]; decide)
  have h4 : u ≠ "last_run" := by intro he; exact hu (by rw [he]; decide)
  show objGet
      (normalizeSection
        (normalizeSection
          (normalizeDaily today (objSetDefault kvs "schema_version" (Json.num 1)))
          "breaker")
        "last_run") u = _
  rw [(normalizeSection_props _ "last_run").2 u h4,
      (normalizeSection_props _ "breaker").2 u h3,
      (normalizeDaily_props today _).2 u h2,
      objGet_objSetDefault_ne kvs "schema_version" (Json.num 1) u h1]

theorem normalizeState_daily_preserved (today : String) (kvs d : List (String × Json))
    (k : String) (v : Json)
    (h : objGet kvs "daily" = some (Json.obj d)) (hk : objGet d k = some v) :
    ∃ d2, stateGet (normalize_state today (Json.obj kvs)) "daily" = some (Json.obj d2)
      ∧ objGet d2 k = some v := by
  refine ⟨_, normalizeState_daily_dict today kvs d h, ?_⟩
  exact objGet_objSetDefault_some _ "per_type" _ k v
    (objGet_objSetDefault_some _ "total_used" _ k v
      (objGet_objSetDefault_some _ "date" _ k v hk))

/-- C10 (counterexample): a parseable guard-state file that is a dict but
not a well-formed state document is not replaced by the normalized
default state — present fields such as a string total_used survive
normalization. -/
theorem C10_state_load_counterexample :
    loadGuardState "2026-10-12"
        (some "\x7b\"daily\": \x7b\"total_used\": \"boom\"\x7d\x7d")
      ≠ default_state "2026-10-12" := by decide

/-- C10 (amended): guard-state loading never fails: a missing file,
content that does not parse as JSON, and parseable JSON that is not a
dict all fall back to the normalized default state; a parseable dict is
loaded as its field-wise normalization, which defaults schema_version to
1 when missing, replaces a missing or non-dict daily section whole while
defaulting the three keys of a dict daily in place (present fields
preserved), replaces missing or non-dict breaker and last_run sections
by empty dicts while keeping dict ones, and preserves every other
top-level field; and every loaded state is a well-formed state
document. -/
theorem C10_state_load_amended :
    (∀ today, loadGuardState today none = default_state today)
    ∧ (∀ today s, jsonLoads s = none → loadGuardState today (some s) = default_state today)
    ∧ (∀ today s v, jsonLoads s = some v → isObjJson v = false →
        loadGuardState today (some s) = default_state today)
    ∧ (∀ today s kvs, jsonLoads s = some (Json.obj kvs) →
        loadGuardState today (some s) = normalize_state today (Json.obj kvs))
    ∧ (∀ today kvs, stateGet (normalize_state today (Json.obj kvs)) "schema_version"
        = some ((objGet kvs "schema_version").getD (Json.num 1)))
    ∧ (∀ today kvs d, objGet kvs "daily" = some (Json.obj d) →
        stateGet (normalize_state today (Json.obj kvs)) "daily"
          = some (Json.obj
              (objSetDefault (objSetDefault (objSetDefault d "date" (Json.str today))
                "total_used" (Json.num 0)) "per_type" (Json.obj []))))
    ∧ (∀ today kvs, optIsDict (objGet kvs "daily") = false →
        stateGet (normalize_state today (Json.obj kvs)) "daily"
          = some (Json.obj [("date", Json.str today), ("total_used", Json.num 0),
                            ("per_type", Json.obj [])]))
    ∧ (∀ today kvs b, objGet kvs "breaker" = some (Json.obj b) →
        stateGet (normalize_state today (Json.obj kvs)) "breaker" = some (Json.obj b))
    ∧ (∀ today kvs, optIsDict (objGet kvs "breaker") = false →
        stateGet (normalize_state today (Json.obj kvs)) "breaker" = some (Json.obj []))
    ∧ (∀ today kvs l, objGet kvs "last_run" = some (Json.obj l) →
        stateGet (normalize_state today (Json.obj kvs)) "last_run" = some (Json.obj l))
    ∧ (∀ today kvs, optIsDict (objGet kvs "last_run") = false →
        stateGet (normalize_state today (Json.obj kvs)) "last_run" = some (Json.obj []))
    ∧ (∀ today kvs u,
        u ∉ (["schema_version", "daily", "breaker", "last_run"] : List String) →
        stateGet (normalize_state today (Json.obj kvs)) u = objGet kvs u)
    ∧ (∀ today kvs d k v, objGet kvs "daily" = some (Json.obj d) → objGet d k = some v →
        ∃ d2, stateGet (normalize_state today (Json.obj kvs)) "daily" = some (Json.obj d2)
          ∧ objGet d2 k = some v)
    ∧ (∀ today content, wellFormedGuardState (loadGuardState today content) = true) := by
  refine ⟨fun today => rfl, ?_, ?_, ?_,
    normalizeState_schema, normalizeState_daily_dict, normalizeState_daily_nondict,
    normalizeState_breaker_dict, normalizeState_breaker_nondict,
    normalizeState_lastrun_dict, normalizeState_lastrun_nondict,
    normalizeState_other_keys, normalizeState_daily_preserved, ?_⟩
  · intro today s h
    unfold loadGuardState
    dsimp only
    rw [h]
    rfl
  · intro today s v h hno
    unfold loadGuardState
    dsimp only
    rw [h]
    exact normalize_state_nonobj today v hno
  · intro today s kvs h
    unfold loadGuardState
    dsimp only
    rw [h]
    rfl
  · intro today content
    unfold loadGuardState
    exact normalize_state_wellFormed today _

/-- C10 (witness): the universal fallback and dict-normalization clauses
evaluated on concrete file contents and state dicts. -/
theorem C10_state_load_witness :
    loadGuardState "2026-10-12" (some "not json at all") = default_state "2026-10-12"
    ∧ loadGuardState "2026-10-12" (some "[1, 2, 3]") = default_state "2026-10-12"
    ∧ stateGet (normalize_state "2026-10-12"
        (Json.obj [("daily", Json.obj [("total_used", Json.str "boom")])])) "daily"
      = some (Json.obj [("total_used", Json.str "boom"), ("date", Json.str "2026-10-12"),
                        ("per_type", Json.obj [])])
    ∧ stateGet (normalize_state "2026-10-12"
        (Json.obj [("breaker", Json.obj [("slides", Json.obj [])])])) "breaker"
      = some (Json.obj [("slides", Json.obj [])]) :=
  ⟨C10_state_load_amended.2.1 "2026-10-12" "not json at all" (by decide),
   C10_state_load_amended.2.2.1 "2026-10-12" "[1, 2, 3]"
     (Json.arr [Json.num 1, Json.num 2, Json.num 3]) (by decide) (by decide),
   C10_state_load_amended.2.2.2.2.2.1 "2026-10-12"
     [("daily", Json.obj [("total_used", Json.str "boom")])]
     [("total_used", Json.str "boom")] (by decide),
   C10_state_load_amended.2.2.2.2.2.2.2.1 "2026-10-12"
     [("breaker", Json.obj [("slides", Json.obj [])])]
     [("slides", Json.obj [])] (by decide)⟩

end Orchestrator
